import Mathlib

/-!
# Verification of `internal/testutil`

A shallow embedding of the assertion helpers of `internal/testutil/testutil.go`
together with the parts of the Go language and standard library they rely on:

* interface values (`any`, `error`) with a dynamic type and a dynamic value,
  and the comparison operators `==` / `!=` on them (Go specification,
  "Comparison operators"), which panic on identical non-comparable dynamic
  types;
* `errors.Is` (package `errors`, file `wrap.go`);
* `bytes.Equal`;
* the part of `*testing.T` the helpers touch: the failed flag and the log.
  `t.Helper()` only affects the file and line printed with a report and is
  left out;
* panics, `defer` and `recover`, as far as `AssertPanic` uses them;
* `make([]byte, n)` and `crypto/rand.Read`, with the random source as an
  explicit argument;
* the generated mocks and the expectation engine behind them, which are not
  among the sources and are modelled from the specification.

Scope of the model. Dynamic values are booleans, `int`, `int64`, `float64`
and `complex128` (by bit pattern), strings, pointers, channels, slices, maps,
functions, error implementations that compare by identity, and composite
values: structs, arrays and values of further numeric or defined types, given
by the parts `==` compares. Methods of error
values (`Error`, `Is`, `Unwrap`) are deterministic, terminate and do not
panic; `Unwrap` trees are finite. Reports are logged with their format string
and operands; their text is rendered for string operands only. Strings are
sequences of Unicode characters, `len` counting their UTF-8 bytes. A function
passed to `AssertPanic` terminates, by returning or by panicking. The width of
`int`, the allocation limit, the allocator and the behaviour of `rand.Read` on
a failing source are arguments of `RandomBytes`.
-/

set_option autoImplicit false

namespace Testutil

/-! ## Go types and values -/

/-- Dynamic types an interface value can carry, as far as `==` can tell them
apart. `named` stands for any other type, given by its name: a struct type,
an array type, a defined type (for example an error implementation); its
comparability (all its field or element types are comparable) is part of the
type. -/
inductive GoType where
  | bool
  | int
  | int64
  | float64
  | complex128
  | string
  | pointer (elem : String)
  | chan (elem : String)
  | slice (elem : String)
  | map (key : String) (elem : String)
  | func (signature : String)
  | named (name : String) (comparable : Bool)
  deriving DecidableEq, Repr

/-- Whether `==` is defined on values of the type (`reflect.Type.Comparable`):
slices, maps and functions are not comparable. -/
def GoType.comparable : GoType → Bool
  | .slice _ => false
  | .map _ _ => false
  | .func _ => false
  | .named _ c => c
  | _ => true

mutual
/-- A non-nil value of interface type `error`: the name of its dynamic type
(a defined type with an `Error` method, or a pointer to one) and whether that
type is comparable, the identity of the dynamic value (a pointer address, or
an encoding of a comparable value), the string its `Error()` method returns,
the index of its `Is(error) bool` method in the method table when the type has
one, and what its `Unwrap` method yields. -/
inductive GoError where
  | mk (typeName : String) (comparable : Bool) (ident : Nat) (msg : String)
      (isMethod : Option Nat) (unwrap : Unwrapped)
/-- The result of the `Unwrap` method of an error value. -/
inductive Unwrapped where
  /-- The dynamic type has no `Unwrap` method. -/
  | absent
  /-- The method `Unwrap() error` returned nil. -/
  | nilError
  /-- The method `Unwrap() error` returned a non-nil error. -/
  | single (inner : GoError)
  /-- The method `Unwrap() []error` returned this slice. -/
  | multi (inner : ErrorList)
/-- A `[]error`; entries may be nil. -/
inductive ErrorList where
  | nil
  | consNil (tail : ErrorList)
  | cons (head : GoError) (tail : ErrorList)
end

/-- An interface value of type `error`; `none` is the nil interface. -/
abbrev Error := Option GoError

/-- The dynamic type of an error value. -/
def GoError.typ : GoError → GoType
  | .mk typeName comparable _ _ _ _ => .named typeName comparable

/-- The identity of the dynamic value of an error value. -/
def GoError.ident : GoError → Nat
  | .mk _ _ ident _ _ _ => ident

/-- The method `Error() string` of an error value. -/
def GoError.Error : GoError → String
  | .mk _ _ _ msg _ _ => msg

/-- The index of the `Is` method of an error value, when it has one. -/
def GoError.isMethod : GoError → Option Nat
  | .mk _ _ _ _ isMethod _ => isMethod

/-- What the `Unwrap` method of an error value yields. -/
def GoError.unwrap : GoError → Unwrapped
  | .mk _ _ _ _ _ unwrap => unwrap

/-! ## `errors.Is` -/

/-- The method table: the behaviour of the `Is(target error) bool` method
with a given index, applied to a non-nil target. -/
abbrev IsTable := Nat → GoError → Bool

/-- The comparison `err == target` of two non-nil `error` interface values:
identical dynamic types and equal dynamic values. -/
def GoError.eq (err target : GoError) : Bool :=
  decide (err.typ = target.typ) && decide (err.ident = target.ident)

/-- The type assertion `err.(interface{ Is(error) bool })` followed by the
call `x.Is(target)`. -/
def callIs (M : IsTable) (err target : GoError) : Bool :=
  match err.isMethod with
  | some k => M k target
  | none => false

mutual
/-- The function `is` of `errors/wrap.go`: the loop over the `Unwrap` chain,
written as a recursion on the error tree. -/
def is (M : IsTable) (err target : GoError) (targetComparable : Bool) : Bool :=
  match err with
  | .mk typeName comparable ident msg isMethod unwrap =>
    if targetComparable
        && GoError.eq (.mk typeName comparable ident msg isMethod unwrap) target then true
    else if callIs M (.mk typeName comparable ident msg isMethod unwrap) target then true
    else isUnwrapped M unwrap target targetComparable
/-- The `switch x := err.(type)` of `is`, on the result of `Unwrap`. -/
def isUnwrapped (M : IsTable) (u : Unwrapped) (target : GoError)
    (targetComparable : Bool) : Bool :=
  match u with
  | .absent => false
  | .nilError => false
  | .single inner => is M inner target targetComparable
  | .multi errs => isAny M errs target targetComparable
/-- The `for _, err := range x.Unwrap()` loop of `is`. -/
def isAny (M : IsTable) (errs : ErrorList) (target : GoError)
    (targetComparable : Bool) : Bool :=
  match errs with
  | .nil => false
  | .consNil tail => isAny M tail target targetComparable
  | .cons head tail =>
    if is M head target targetComparable then true
    else isAny M tail target targetComparable
end

/-- The function `errors.Is(err, target)`. -/
def errorsIs (M : IsTable) (err target : Error) : Bool :=
  match err, target with
  | none, none => true
  | none, some _ => false
  | some _, none => false
  | some e, some t => is M e t t.typ.comparable

/-! ## Byte slices -/

/-- A value of type `byte`. -/
abbrev Byte := Fin 256

/-- A value of type `[]byte`: the identity of its backing array (`none` for
the nil slice) and the elements visible through the slice. -/
structure ByteSlice where
  array : Option Nat
  elems : List Byte
  deriving DecidableEq

/-- The built-in `len` on a byte slice. -/
def ByteSlice.len (b : ByteSlice) : Nat := b.elems.length

/-- The runtime routine `memequal`: compares two memory areas element by
element; it is only called on areas of the same length. -/
def memequal : List Byte → List Byte → Bool
  | [], [] => true
  | x :: xs, y :: ys => if x = y then memequal xs ys else false
  | _, _ => false

/-- The function `bytes.Equal(a, b)`, that is `string(a) == string(b)`:
string equality compares the lengths and then the bytes. -/
def bytesEqual (a b : ByteSlice) : Bool :=
  if a.len = b.len then memequal a.elems b.elems else false


/-! ## Values of type `any` and their comparison -/

mutual
/-- A value that can be stored in an interface of type `any`. Pointers, maps,
channels and functions are identified by an address, `0` being nil; a slice by
its backing array (`none` for the nil slice) and length; a `float64` by its
IEEE 754 bit pattern, a `complex128` by those of its real and imaginary part.
A value whose dynamic type implements `error` and compares by identity is an
`error` value, which carries its methods. A `composite` is a value of any
other type, a struct, an array, or a further numeric or defined type: the
name of its type, whether that type is comparable, and the parts `==`
compares, in the order it compares them (the fields in source order without
the blank ones, the elements by ascending index, the underlying value of a
numeric or defined type). -/
inductive GoValue where
  | bool (b : Bool)
  | int (n : Int)
  | int64 (n : Int)
  | float64 (bits : Nat)
  | complex128 (re : Nat) (im : Nat)
  | string (s : String)
  | pointer (elem : String) (addr : Nat)
  | chan (elem : String) (addr : Nat)
  | slice (elem : String) (array : Option Nat) (len : Nat)
  | map (key : String) (elem : String) (addr : Nat)
  | func (signature : String) (addr : Nat)
  | error (e : GoError)
  | composite (typeName : String) (comparable : Bool) (parts : GoParts)
/-- The parts of a composite value. A part of interface type holds nil
(`consNil`) or a value of any dynamic type; a part of another type holds a
value of that type. -/
inductive GoParts where
  | nil
  | consNil (tail : GoParts)
  | cons (head : GoValue) (tail : GoParts)
end

/-- An interface value of type `any`; `none` is the nil interface. -/
abbrev GoAny := Option GoValue

/-- The dynamic type of a value stored in an interface. -/
def GoValue.typeOf : GoValue → GoType
  | .bool _ => .bool
  | .int _ => .int
  | .int64 _ => .int64
  | .float64 _ => .float64
  | .complex128 _ _ => .complex128
  | .string _ => .string
  | .pointer elem _ => .pointer elem
  | .chan elem _ => .chan elem
  | .slice elem _ _ => .slice elem
  | .map key elem _ => .map key elem
  | .func signature _ => .func signature
  | .error e => e.typ
  | .composite typeName comparable _ => .named typeName comparable

/-- Conversion of a value of interface type `error` to `any`, as happens when
an `error` variable is passed for an `any` parameter: the nil interface stays
nil, a non-nil one keeps its dynamic type and value. -/
def Error.toAny : Error → GoAny
  | none => none
  | some e => some (.error e)

/-- Whether a `float64` bit pattern is a NaN: exponent all ones, mantissa not
zero. -/
def float64IsNaN (bits : Nat) : Bool :=
  (bits / 2 ^ 52) % 2 ^ 11 == 2047 && bits % 2 ^ 52 != 0

/-- The comparison `==` on `float64` (IEEE 754): a NaN equals nothing, the two
zeros are equal, otherwise the bit patterns decide. -/
def float64Eq (x y : Nat) : Bool :=
  !float64IsNaN x && !float64IsNaN y
    && (x % 2 ^ 64 == y % 2 ^ 64 || (x % 2 ^ 63 == 0 && y % 2 ^ 63 == 0))

/-- A panic raised by the Go runtime. -/
inductive PanicValue where
  /-- The error `runtime error: comparing uncomparable type T`. -/
  | uncomparable (typ : GoType)
  deriving DecidableEq

mutual
/-- The comparison `==` on two dynamic values of one comparable type. Two
composite values are compared part by part. -/
def GoValue.cmp : GoValue → GoValue → Except PanicValue Bool
  | .bool a, .bool b => .ok (a == b)
  | .int a, .int b => .ok (a == b)
  | .int64 a, .int64 b => .ok (a == b)
  | .float64 a, .float64 b => .ok (float64Eq a b)
  | .complex128 ar ai, .complex128 br bi => .ok (float64Eq ar br && float64Eq ai bi)
  | .string a, .string b => .ok (a == b)
  | .pointer _ a, .pointer _ b => .ok (a == b)
  | .chan _ a, .chan _ b => .ok (a == b)
  | .error a, .error b => .ok (a.ident == b.ident)
  | .composite _ _ ps, .composite _ _ qs => GoParts.cmp ps qs
  | _, _ => .ok false
/-- The comparison of the parts of two composite values of one type, in
order: it stops as soon as two parts differ or their comparison panics. Two
parts are compared as interface values are: different dynamic types differ,
one non-comparable dynamic type panics, otherwise the values decide. -/
def GoParts.cmp : GoParts → GoParts → Except PanicValue Bool
  | .nil, .nil => .ok true
  | .consNil ps, .consNil qs => GoParts.cmp ps qs
  | .cons a ps, .cons b qs =>
    if a.typeOf ≠ b.typeOf then .ok false
    else if a.typeOf.comparable = false then .error (.uncomparable a.typeOf)
    else
      match GoValue.cmp a b with
      | .ok true => GoParts.cmp ps qs
      | .ok false => .ok false
      | .error p => .error p
  | _, _ => .ok false
end

/-- The comparison `x == y` of two interface values (`runtime.efaceeq`): both
nil, or identical dynamic types and equal dynamic values; identical
non-comparable dynamic types panic, and so does the comparison of the values
when it meets them inside. -/
def ifaceEq (x y : GoAny) : Except PanicValue Bool :=
  match x, y with
  | none, none => .ok true
  | none, some _ => .ok false
  | some _, none => .ok false
  | some a, some b =>
    if a.typeOf ≠ b.typeOf then .ok false
    else if a.typeOf.comparable = false then .error (.uncomparable a.typeOf)
    else a.cmp b

/-! ## The test state `*testing.T` -/

/-- An operand of a `t.Errorf` or `t.Error` call. -/
inductive Arg where
  | str (s : String)
  | err (e : Error)
  | bytes (b : ByteSlice)
  | value (v : GoAny)

/-- One logged failure report: the format string and the operands of the call
(`t.Error` has no format string). -/
inductive Report where
  | errorf (format : String) (args : List Arg)
  | error (args : List Arg)

/-- The part of `testing.T` the helpers use: the failed flag and the log. -/
structure T where
  failed : Bool
  log : List Report

/-- The method `t.Errorf(format, args...)`: `Logf` followed by `Fail`. -/
def T.Errorf (t : T) (format : String) (args : List Arg) : T :=
  { failed := true, log := t.log ++ [.errorf format args] }

/-- The method `t.Error(args...)`: `Log` followed by `Fail`. -/
def T.Error (t : T) (args : List Arg) : T :=
  { failed := true, log := t.log ++ [.error args] }

/-- The method `t.Failed()`. -/
def T.Failed (t : T) : Bool := t.failed

/-! ## The assertion helpers of `testutil.go` -/

/-- The helper `AssertError` asserts that the actual error matches the
expected error. -/
def AssertError (M : IsTable) (t : T) (expected actual : Error) : T :=
  match expected, actual with
  | none, none => t
  | none, some a => t.Errorf "expected no error, got %v" [.err (some a)]
  | some e, none => t.Errorf "expected error %v, got nil" [.err (some e)]
  | some e, some a =>
    if !errorsIs M (some a) (some e) && e.Error != a.Error then
      t.Errorf "expected error %v, got %v" [.err (some e), .err (some a)]
    else t

/-- The helper `AssertBytes` compares byte slices and reports differences. -/
def AssertBytes (t : T) (expected actual : ByteSlice) : T :=
  if !bytesEqual expected actual then
    t.Errorf "byte slices differ:\nexpected: %v\nactual:   %v" [.bytes expected, .bytes actual]
  else t

/-- The helper `AssertEqual` compares two values and reports if they are not
equal; the comparison `expected != actual` may panic. -/
def AssertEqual (t : T) (expected actual : GoAny) : Except PanicValue T :=
  match ifaceEq expected actual with
  | .error p => .error p
  | .ok eq =>
    if !eq then
      .ok (t.Errorf "values differ:\nexpected: %v\nactual:   %v" [.value expected, .value actual])
    else .ok t

/-- The helper `AssertNotEqual` ensures two values are different; the
comparison `expected == actual` may panic. -/
def AssertNotEqual (t : T) (expected actual : GoAny) : Except PanicValue T :=
  match ifaceEq expected actual with
  | .error p => .error p
  | .ok eq =>
    if eq then
      .ok (t.Errorf "expected values to differ, but both are: %v" [.value expected])
    else .ok t

/-- The helper `AssertNil` checks that a value is nil: `value != nil` on the
interface value. -/
def AssertNil (t : T) (value : GoAny) : T :=
  if value.isSome then t.Errorf "expected nil, got %v" [.value value] else t

/-- The helper `AssertNotNil` checks that a value is not nil: `value == nil`
on the interface value. -/
def AssertNotNil (t : T) (value : GoAny) : T :=
  if value.isNone then t.Error [.str "expected non-nil value, got nil"] else t


/-! ## Functions, panics and `recover` -/

/-- How a call of a function ends: by returning to its caller, or by a panic
that leaves the function; `value` is what `recover()` yields for that
panic. -/
inductive Completion where
  | returned
  | panicked (value : GoAny)

/-- A function value of type `func()`: what a call does to the test state
and how the call ends. Calls terminate; leaving the goroutine or the process
is outside the model. -/
abbrev GoFunc := T → T × Completion

/-- The built-in `recover`, called directly by a deferred function: it yields
the value of the current panic, nil when the function is not panicking, and
ends the panicking sequence, so that the function returns to its caller. -/
def recover : Completion → GoAny × Completion
  | .returned => (none, .returned)
  | .panicked value => (value, .returned)

/-- The helper `formatMsg` formats an optional message for error output. -/
def formatMsg (msg : String) : String :=
  if msg = "" then "" else " (" ++ msg ++ ")"

/-- The helper `AssertPanic`: `f()` runs, then the deferred function calls
`recover()` and reports when it yields nil. -/
def AssertPanic (t : T) (f : GoFunc) (msg : String) : T × Completion :=
  match f t with
  | (t1, c) =>
    match recover c with
    | (r, c') =>
      if r.isNone then
        (t1.Errorf "expected panic%s, but function did not panic" [.str (formatMsg msg)], c')
      else (t1, c')

/-! ## `RandomBytes` -/

/-- How a call that can bring the process down ends: it returns a value, it
is left by a panic, or the runtime ends the process with a fatal error, which
is no panic and which no `recover` intercepts. -/
inductive Outcome (α : Type) where
  | returned (value : α)
  | panicked (value : GoAny)
  | aborted

/-- What the helpers see of the Go runtime and library they run on: the width
of `int`, the allocation limit `maxAlloc` of `makeslice`, the address of the
zero-sized base, the allocator (`none`: out of memory, a fatal error), and
whether `rand.Read` ends the process when the source fails (Go 1.24 and
later) or returns the error (earlier versions). -/
structure Runtime where
  intBits : Nat
  maxAlloc : Nat
  zerobase : Nat
  alloc : Nat → Option Nat
  readErrorIsFatal : Bool

/-- Whether an integer is a value of the type `int` of the runtime. -/
def Runtime.isInt (rt : Runtime) (n : Int) : Bool :=
  decide (-(2 : Int) ^ (rt.intBits - 1) ≤ n) && decide (n < (2 : Int) ^ (rt.intBits - 1))

/-- The system random source as `crypto/rand.Read` sees it: the bytes it
delivers next, and the error its reader fails with when it is out of
order. -/
structure RandSource where
  stream : Nat → Byte
  failure : Option GoError

/-- The function `rand.Read(b)`, which is `io.ReadFull(Reader, b)`: an empty
`b` is left alone and the source is not read; otherwise `b` is filled
entirely with the next bytes of the source and the error is nil, or the source
fails and the error is returned, or (Go 1.24 and later) the process is
ended. -/
def randRead (rt : Runtime) (src : RandSource) (b : ByteSlice) :
    RandSource × ByteSlice × Outcome Error :=
  if b.len = 0 then (src, b, .returned none)
  else
    match src.failure with
    | some err =>
      if rt.readErrorIsFatal then (src, b, .aborted) else (src, b, .returned (some err))
    | none =>
      ({ src with stream := fun i => src.stream (i + b.len) },
        { b with elems := (List.range b.len).map src.stream }, .returned none)

/-- The value of the panic `runtime error: makeslice: len out of range`. -/
def makesliceLenError : GoError :=
  .mk "runtime.errorString" true 0 "runtime error: makeslice: len out of range" none .absent

/-- The built-in `make([]byte, n)` for an `int` length, that is
`runtime.makeslice` with an element size of one byte: a length that is
negative or above `maxAlloc` panics; the length zero yields the zero-sized
base; otherwise the allocator provides a zeroed area, or the process is ended
for lack of memory. -/
def makeBytes (rt : Runtime) (n : Int) : Outcome ByteSlice :=
  if n < 0 ∨ (rt.maxAlloc : Int) < n then .panicked (some (.error makesliceLenError))
  else if n = 0 then .returned { array := some rt.zerobase, elems := [] }
  else
    match rt.alloc n.toNat with
    | none => .aborted
    | some addr => .returned { array := some addr, elems := List.replicate n.toNat 0 }

/-- The helper `RandomBytes` generates a random byte slice of the specified
length. The result is the slice, the value of the panic that left the
function, or the end of the process. -/
def RandomBytes (rt : Runtime) (src : RandSource) (n : Int) :
    RandSource × Outcome ByteSlice :=
  match makeBytes rt n with
  | .panicked p => (src, .panicked p)
  | .aborted => (src, .aborted)
  | .returned b =>
    match randRead rt src b with
    | (src', _, .aborted) => (src', .aborted)
    | (src', _, .panicked p) => (src', .panicked p)
    | (src', _, .returned (some err)) =>
      (src', .panicked (some (.string ("failed to generate random bytes: " ++ err.Error))))
    | (src', b', .returned none) => (src', .returned b')

/-! ## What a helper call did to the test state -/

/-- A helper call that took the test state `t` to `t'` reported no failure:
the state is untouched. -/
def reportsNothing (t t' : T) : Prop := t' = t

/-- A helper call that took the test state `t` to `t'` marked the test as
failed: the failed flag is set and exactly one report was logged. -/
def marksFailed (t t' : T) : Prop := t'.failed = true ∧ ∃ r, t'.log = t.log ++ [r]

/-- A helper that can panic returned normally and reported no failure. -/
def okReportsNothing (t : T) (r : Except PanicValue T) : Prop :=
  match r with
  | .ok t' => reportsNothing t t'
  | .error _ => False

/-- A helper that can panic returned normally and marked the test as
failed. -/
def okMarksFailed (t : T) (r : Except PanicValue T) : Prop :=
  match r with
  | .ok t' => marksFailed t t'
  | .error _ => False

mutual
/-- Whether a dynamic value is or contains a floating-point NaN that `==`
would look at: a NaN `float64`, a `complex128` with a NaN part, a composite
value with such a part. -/
def GoValue.containsNaN : GoValue → Bool
  | .float64 bits => float64IsNaN bits
  | .complex128 re im => float64IsNaN re || float64IsNaN im
  | .composite _ _ parts => GoParts.containsNaN parts
  | _ => false
/-- Whether one of the parts is or contains a floating-point NaN. -/
def GoParts.containsNaN : GoParts → Bool
  | .nil => false
  | .consNil tail => GoParts.containsNaN tail
  | .cons head tail => GoValue.containsNaN head || GoParts.containsNaN tail
end

/-- Whether a dynamic value is a composite one (a struct, an array, a value
of a defined type). -/
def GoValue.isComposite : GoValue → Bool
  | .composite _ _ _ => true
  | _ => false

/-- Values of the types on which `==` is plain identity of the value:
booleans, integers, strings, pointers and channels (floating-point numbers
compare by IEEE 754, error implementations by type and identity). -/
def GoValue.isPlain : GoValue → Bool
  | .bool _ => true
  | .int _ => true
  | .int64 _ => true
  | .string _ => true
  | .pointer _ _ => true
  | .chan _ _ => true
  | _ => false

/-! ## Concrete values used in the examples -/

/-- A fresh test state, as `&testing.T{}`. -/
def freshT : T := { failed := false, log := [] }

/-- A method table for programs without `Is` methods. -/
def noIsMethods : IsTable := fun _ _ => false

/-- The result of `errors.New(msg)` allocated at address `addr`. -/
def errorsNew (addr : Nat) (msg : String) : GoError :=
  .mk "*errors.errorString" true addr msg none .absent

/-- The result of `fmt.Errorf(msg, inner)` with a `%w` verb, allocated at
address `addr`: a `*fmt.wrapError` whose `Unwrap` yields `inner`. -/
def fmtErrorfW (addr : Nat) (msg : String) (inner : GoError) : GoError :=
  .mk "*fmt.wrapError" true addr msg none (.single inner)

/-- A runtime as on linux/amd64 before Go 1.24: 64-bit `int`, allocation limit
2^48 bytes, 16 GiB of memory to hand out. -/
def amd64 : Runtime :=
  { intBits := 64
    maxAlloc := 2 ^ 48
    zerobase := 0x5A1000
    alloc := fun size => if size ≤ 2 ^ 34 then some 0xC000100000 else none
    readErrorIsFatal := false }

/-- A random source in working order that delivers the bytes 0, 1, 2, ... -/
def countingSource : RandSource := { stream := fun i => Fin.ofNat i, failure := none }

/-- A random source whose reader fails. -/
def brokenSource : RandSource :=
  { stream := fun _ => 0, failure := some (errorsNew 3 "entropy source unavailable") }

/-- The value `[1]float64{math.NaN()}`, an array holding a NaN. -/
def nanArray : GoValue := .composite "[1]float64" true (.cons (.float64 0x7FF8000000000001) .nil)

/-- The value `box{v: []int{1, 2, 3}}` of the struct type `box` with the one
field `v any`: a comparable type, its field holding a slice. -/
def boxedSlice : GoValue := .composite "box" true (.cons (.slice "int" (some 1) 3) .nil)

/-- A `time.Time` value as the tests pass it to `AssertEqual`: the fields
`wall` (a `uint64`, given by its underlying number), `ext` and `loc`. -/
def someTime : GoValue :=
  .composite "time.Time" true
    (.cons (.composite "uint64" true (.cons (.int64 13891497887371854066) .nil))
      (.cons (.int64 25001) (.cons (.pointer "time.Location" 0x5B2A40) .nil)))

/-- The bit pattern of the `float64` value `math.NaN()`. -/
def nanBits : Nat := 0x7FF8000000000001

/-- Two interface values of one non-comparable dynamic type (both slices of
one type, both maps of one type, both functions of one type, ...). -/
def uncomparablePair (x y : GoAny) : Bool :=
  match x, y with
  | some a, some b => decide (a.typeOf = b.typeOf) && !a.typeOf.comparable
  | _, _ => false

/-! ## Mocks and expectations

The generated mock types and the expectation engine they delegate to are not
among the sources; they are modelled from the specification. -/

/-- Modelled from the spec: a matcher for one argument of an expected call
(the source of the expectation engine is absent): it accepts or rejects the
argument of an actual call. -/
abbrev Matcher := GoAny → Bool

/-- Modelled from the spec: the matcher `gomock.Any()` the tests use, which
accepts every argument. -/
def anyMatcher : Matcher := fun _ => true

/-- Modelled from the spec: the Expectation, "a tuple of (method name,
matcher(s) for arguments, configured return values, cardinality constraint,
ordering constraint)". The cardinality constraint is the number of calls
still expected (`none`: any number); the ordering constraint lists the
positions, in the controller, of the expectations that must be satisfied
before this one can be matched. -/
structure Expectation where
  method : String
  matchers : List Matcher
  returns : List GoAny
  remaining : Option Nat
  after : List Nat

/-- Modelled from the spec: the expectations of one test, in the order they
were declared; the state of the shared call-recording and matching engine. -/
abbrev Controller := List Expectation

/-- Modelled from the spec: "set an expected call with arguments and a canned
return value": the expectation `EXPECT().method(matchers...).Return(values...)`,
expected once and unordered. -/
def expect (method : String) (matchers : List Matcher) (values : List GoAny) : Expectation :=
  { method := method, matchers := matchers, returns := values, remaining := some 1, after := [] }

/-- Modelled from the spec: the cardinality constraint is met. -/
def Expectation.satisfied (e : Expectation) : Bool :=
  match e.remaining with
  | some k => k == 0
  | none => true

/-- Modelled from the spec: the expectation cannot be consumed any more. -/
def Expectation.exhausted (e : Expectation) : Bool :=
  match e.remaining with
  | some k => k == 0
  | none => false

/-- Modelled from the spec: the expectation after one more call was matched
against it ("matched and decremented"). -/
def Expectation.consume (e : Expectation) : Expectation :=
  { e with remaining := e.remaining.map (fun k => k - 1) }

/-- Modelled from the spec: the matchers accept the arguments of a call, one
matcher for each argument. -/
def argsMatch : List Matcher → List GoAny → Bool
  | [], [] => true
  | m :: ms, a :: as => m a && argsMatch ms as
  | _, _ => false

/-- Modelled from the spec: the ordering constraint of an expectation holds in
the controller: every expectation it comes after is satisfied. -/
def prereqsSatisfied (ctrl : Controller) (e : Expectation) : Bool :=
  e.after.all fun i =>
    match ctrl[i]? with
    | some p => p.satisfied
    | none => true

/-- Modelled from the spec: the expectation matches a call of `method` with
`args`: same method, arguments accepted, not exhausted, ordering constraint
met. -/
def Expectation.accepts (ctrl : Controller) (e : Expectation) (method : String)
    (args : List GoAny) : Bool :=
  e.method == method && argsMatch e.matchers args && !e.exhausted && prereqsSatisfied ctrl e

/-- Modelled from the spec: the position of the first expectation among
`es`, which start at position `pos` of the controller, that matches the
call. -/
def findMatch (ctrl : Controller) (method : String) (args : List GoAny) :
    List Expectation → Nat → Option Nat
  | [], _ => none
  | e :: es, pos =>
    if e.accepts ctrl method args then some pos
    else findMatch ctrl method args es (pos + 1)

/-- Modelled from the spec: the engine handles a call: the first matching
expectation is consumed and its configured return values are handed back;
`none` is an unexpected call, which the engine reports as a test failure. -/
def Controller.Call (ctrl : Controller) (method : String) (args : List GoAny) :
    Option (Controller × List GoAny) :=
  match findMatch ctrl method args ctrl 0 with
  | none => none
  | some i =>
    match ctrl[i]? with
    | none => none
    | some e => some (ctrl.set i e.consume, e.returns)

/-- Modelled from the spec: a mock method, a "delegation shim" that forwards
the call to the engine and returns "whatever canned" values were
configured. -/
def mockMethod (ctrl : Controller) (method : String) (args : List GoAny) :
    Option (Controller × List GoAny) :=
  ctrl.Call method args

/-- Modelled from the spec: the expectations `es`, placed right after
position `prev` of the controller, each ordered after its predecessor. -/
def chainAfter (prev : Nat) : List Expectation → List Expectation
  | [] => []
  | e :: es => { e with after := prev :: e.after } :: chainAfter (prev + 1) es

/-- Modelled from the spec: `gomock.InOrder(calls...)`, "checking call
order": the controller of a mock whose expectations are `calls`, each one
after the first ordered after its predecessor. -/
def InOrder : List Expectation → Controller
  | [] => []
  | e :: es => e :: chainAfter 0 es

/-- Modelled from the spec: the test invokes mock methods one after the other;
the result lists what each call returned, `none` when a call was
unexpected. -/
def replay (ctrl : Controller) : List (String × List GoAny) → Option (List (List GoAny))
  | [] => some []
  | (method, args) :: rest =>
    match mockMethod ctrl method args with
    | none => none
    | some (ctrl', values) => (replay ctrl' rest).map fun vs => values :: vs

/-! ## The text of a report -/

/-- The function `fmt.Sprintf` on the characters of the format string, for
the verbs `%s` and `%v` with string operands, which are copied into the
output. `none` stands for every rendering outside the model: an operand that
is not a string, another verb, missing or extra operands. -/
def sprintfChars : List Char → List Arg → Option (List Char)
  | [], [] => some []
  | [], _ :: _ => none
  | c :: rest, args =>
    if c = '%' then
      match rest, args with
      | verb :: rest', .str s :: args' =>
        if verb = 's' ∨ verb = 'v' then
          (sprintfChars rest' args').map fun out => s.toList ++ out
        else none
      | _, _ => none
    else (sprintfChars rest args).map fun out => c :: out

/-- The function `fmt.Sprintf(format, args...)`, as far as modelled. -/
def Sprintf (format : String) (args : List Arg) : Option String :=
  (sprintfChars format.toList args).map String.mk

/-- The function `fmt.Sprintln(args...)` for string operands: the operands
separated by spaces, followed by a newline. -/
def Sprintln : List Arg → Option String
  | [] => some "\n"
  | [.str s] => some (s ++ "\n")
  | .str s :: rest => (Sprintln rest).map fun out => s ++ " " ++ out
  | _ => none

/-- The text `t.Errorf` or `t.Error` hands to the log for a report. -/
def Report.text : Report → Option String
  | .errorf format args => Sprintf format args
  | .error args => Sprintln args

/-- The built-in `len` on a string: its number of bytes. -/
def goLen (s : String) : Nat := s.utf8ByteSize

/-- Reading the message back from the output of `formatMsg`: the text
without its first two characters and its last one. -/
def stripMsg (s : String) : String := String.mk ((s.data.drop 2).dropLast)

/-- A helper call that took the test state `t` to `t'` recorded at most one
failure message. -/
def atMostOneReport (t t' : T) : Prop := t'.log = t.log ∨ ∃ r, t'.log = t.log ++ [r]

/-- A helper that can panic recorded at most one failure message: none when
the comparison panicked, which happens before any report. -/
def okAtMostOneReport (t : T) (r : Except PanicValue T) : Prop :=
  match r with
  | .ok t' => atMostOneReport t t'
  | .error _ => True

/-! ## General lemmas -/

theorem marksFailed_Errorf (t : T) (format : String) (args : List Arg) :
    marksFailed t (t.Errorf format args) :=
  ⟨rfl, _, rfl⟩

theorem marksFailed_Error (t : T) (args : List Arg) :
    marksFailed t (t.Error args) :=
  ⟨rfl, _, rfl⟩

theorem reportsNothing_self (t : T) : reportsNothing t t := rfl

theorem not_marksFailed_self (t : T) : ¬ marksFailed t t := by
  rintro ⟨-, r, h⟩
  have := congrArg List.length h
  simp at this

/-- A call cannot both report nothing and mark the test failed. -/
theorem not_marksFailed_of_reportsNothing {t t' : T} (h : reportsNothing t t') :
    ¬ marksFailed t t' := by
  rw [h]
  exact not_marksFailed_self t

theorem not_reportsNothing_Errorf (t : T) (format : String) (args : List Arg) :
    ¬ reportsNothing t (t.Errorf format args) :=
  fun h => not_marksFailed_of_reportsNothing h (marksFailed_Errorf t format args)

/-- The only two outcomes of the last branch of `AssertError`. -/
theorem AssertError_some_some (M : IsTable) (t : T) (e a : GoError) :
    AssertError M t (some e) (some a) =
      if errorsIs M (some a) (some e) = false ∧ e.Error ≠ a.Error then
        t.Errorf "expected error %v, got %v" [.err (some e), .err (some a)]
      else t := by
  unfold AssertError
  by_cases h1 : errorsIs M (some a) (some e) = true <;>
    by_cases h2 : e.Error = a.Error <;> simp [h1, h2]

theorem memequal_iff (xs ys : List Byte) : memequal xs ys = true ↔ xs = ys := by
  induction xs generalizing ys with
  | nil => cases ys <;> simp [memequal]
  | cons x xs ih =>
    cases ys with
    | nil => simp [memequal]
    | cons y ys =>
      by_cases h : x = y
      · simp [memequal, h, ih]
      · simp [memequal, h]

theorem bytesEqual_iff (a b : ByteSlice) : bytesEqual a b = true ↔ a.elems = b.elems := by
  unfold bytesEqual ByteSlice.len
  by_cases h : a.elems.length = b.elems.length
  · simp [h, memequal_iff]
  · simp only [h, if_false]
    constructor
    · intro h'
      cases h'
    · intro h'
      exact absurd (congrArg List.length h') h

/-- Two lists are different exactly when their lengths differ or they differ
at some index inside the first. -/
theorem list_ne_iff (xs ys : List Byte) :
    xs ≠ ys ↔ (xs.length ≠ ys.length ∨ ∃ i, i < xs.length ∧ xs[i]? ≠ ys[i]?) := by
  constructor
  · intro hne
    by_cases hl : xs.length = ys.length
    · right
      by_contra hcon
      push_neg at hcon
      apply hne
      apply List.ext_getElem?
      intro i
      by_cases hi : i < xs.length
      · exact hcon i hi
      · have h1 : xs.length ≤ i := Nat.le_of_not_lt hi
        have h2 : ys.length ≤ i := hl ▸ h1
        rw [List.getElem?_eq_none h1, List.getElem?_eq_none h2]
    · exact Or.inl hl
  · rintro (hl | ⟨i, -, hi⟩) h
    · exact hl (congrArg List.length h)
    · exact hi (by rw [h])

theorem ifaceEq_same_type (a b : GoValue) (hty : a.typeOf = b.typeOf)
    (hc : a.typeOf.comparable = true) :
    ifaceEq (some a) (some b) = a.cmp b := by
  have hc' : b.typeOf.comparable = true := hty ▸ hc
  unfold ifaceEq
  simp [hty, hc']

/-- The comparison of two values that are not composite does not panic. -/
theorem GoValue.cmp_ok_of_not_composite (a b : GoValue) (h : a.isComposite = false) :
    ∃ r, a.cmp b = .ok r := by
  cases a <;> cases b <;> simp_all [GoValue.cmp, GoValue.isComposite]

/-- On plain values of one type `==` is identity of the value. -/
theorem GoValue.cmp_iff_of_isPlain (a b : GoValue) (hty : a.typeOf = b.typeOf)
    (hp : a.isPlain = true) : a.cmp b = .ok true ↔ a = b := by
  cases a <;> cases b <;>
    simp_all [GoValue.cmp, GoValue.typeOf, GoValue.isPlain, GoError.typ]

theorem float64Eq_comm (x y : Nat) : float64Eq x y = float64Eq y x := by
  unfold float64Eq
  rw [Bool.and_comm (!float64IsNaN x) (!float64IsNaN y),
    Bool.beq_comm (a := x % 2 ^ 64) (b := y % 2 ^ 64),
    Bool.and_comm (x % 2 ^ 63 == 0) (y % 2 ^ 63 == 0)]

mutual
/-- A value of a comparable type without a NaN inside never compares unequal
to itself. -/
theorem GoValue.cmp_self : (v : GoValue) → v.typeOf.comparable = true →
    v.containsNaN = false → v.cmp v ≠ .ok false
  | .bool _, _, _ => by simp [GoValue.cmp]
  | .int _, _, _ => by simp [GoValue.cmp]
  | .int64 _, _, _ => by simp [GoValue.cmp]
  | .float64 _, _, h => by
    simp only [GoValue.containsNaN] at h
    simp [GoValue.cmp, float64Eq, h]
  | .complex128 _ _, _, h => by
    simp only [GoValue.containsNaN, Bool.or_eq_false_iff] at h
    simp [GoValue.cmp, float64Eq, h.1, h.2]
  | .string _, _, _ => by simp [GoValue.cmp]
  | .pointer _ _, _, _ => by simp [GoValue.cmp]
  | .chan _ _, _, _ => by simp [GoValue.cmp]
  | .slice _ _ _, hc, _ => by simp [GoValue.typeOf, GoType.comparable] at hc
  | .map _ _ _, hc, _ => by simp [GoValue.typeOf, GoType.comparable] at hc
  | .func _ _, hc, _ => by simp [GoValue.typeOf, GoType.comparable] at hc
  | .error _, _, _ => by simp [GoValue.cmp]
  | .composite _ _ parts, _, h => by
    simp only [GoValue.containsNaN] at h
    simp only [GoValue.cmp]
    exact GoParts.partsCmp_self parts h
/-- The parts of a composite value without a NaN inside never compare
unequal to themselves. -/
theorem GoParts.partsCmp_self : (ps : GoParts) → ps.containsNaN = false → ps.cmp ps ≠ .ok false
  | .nil, _ => by simp [GoParts.cmp]
  | .consNil tail, h => by
    simp only [GoParts.containsNaN] at h
    simp only [GoParts.cmp]
    exact GoParts.partsCmp_self tail h
  | .cons head tail, h => by
    simp only [GoParts.containsNaN, Bool.or_eq_false_iff] at h
    have h2 := GoParts.partsCmp_self tail h.2
    simp only [GoParts.cmp, ne_eq, not_true_eq_false, if_false]
    cases hc : head.typeOf.comparable
    · simp
    · have h1 := GoValue.cmp_self head hc h.1
      cases hv : head.cmp head with
      | error p => simp
      | ok r =>
        cases r
        · exact absurd hv h1
        · simpa using h2
end

mutual
/-- The comparison of two dynamic values does not depend on their order, the
panic included. -/
theorem GoValue.cmp_comm : (a b : GoValue) → a.cmp b = b.cmp a
  | .bool _, b => by cases b <;> simp [GoValue.cmp, Bool.beq_comm]
  | .int _, b => by cases b <;> simp [GoValue.cmp, Bool.beq_comm]
  | .int64 _, b => by cases b <;> simp [GoValue.cmp, Bool.beq_comm]
  | .float64 _, b => by cases b <;> simp [GoValue.cmp, float64Eq_comm]
  | .complex128 ar ai, b => by
    cases b <;> simp [GoValue.cmp, float64Eq_comm ar, float64Eq_comm ai]
  | .string _, b => by cases b <;> simp [GoValue.cmp, Bool.beq_comm]
  | .pointer _ _, b => by cases b <;> simp [GoValue.cmp, Bool.beq_comm]
  | .chan _ _, b => by cases b <;> simp [GoValue.cmp, Bool.beq_comm]
  | .slice _ _ _, b => by cases b <;> simp [GoValue.cmp]
  | .map _ _ _, b => by cases b <;> simp [GoValue.cmp]
  | .func _ _, b => by cases b <;> simp [GoValue.cmp]
  | .error _, b => by cases b <;> simp [GoValue.cmp, Bool.beq_comm]
  | .composite _ _ ps, b => by
    cases b <;> simp only [GoValue.cmp]
    exact GoParts.partsCmp_comm ps _
/-- The comparison of the parts of two composite values does not depend on
their order. -/
theorem GoParts.partsCmp_comm : (ps qs : GoParts) → ps.cmp qs = qs.cmp ps
  | .nil, qs => by cases qs <;> simp [GoParts.cmp]
  | .consNil tail, qs => by
    cases qs <;> simp only [GoParts.cmp]
    exact GoParts.partsCmp_comm tail _
  | .cons head tail, qs => by
    cases qs with
    | nil => simp [GoParts.cmp]
    | consNil _ => simp [GoParts.cmp]
    | cons b qs =>
      simp only [GoParts.cmp]
      by_cases hty : head.typeOf = b.typeOf
      · rw [GoValue.cmp_comm head b, GoParts.partsCmp_comm tail qs]
        simp [hty]
      · have hty' : ¬ b.typeOf = head.typeOf := fun h => hty h.symm
        simp [hty, hty']
end

mutual
/-- Every panic of the comparison is the runtime error about a
non-comparable type. -/
theorem GoValue.cmp_error : (a b : GoValue) → (p : PanicValue) → a.cmp b = .error p →
    ∃ ty : GoType, p = .uncomparable ty ∧ ty.comparable = false
  | .composite _ _ ps, b, p, h => by
    cases b <;> simp only [GoValue.cmp] at h <;> try cases h
    exact GoParts.partsCmp_error ps _ p h
  | .bool _, b, p, h => by cases b <;> simp [GoValue.cmp] at h
  | .int _, b, p, h => by cases b <;> simp [GoValue.cmp] at h
  | .int64 _, b, p, h => by cases b <;> simp [GoValue.cmp] at h
  | .float64 _, b, p, h => by cases b <;> simp [GoValue.cmp] at h
  | .complex128 _ _, b, p, h => by cases b <;> simp [GoValue.cmp] at h
  | .string _, b, p, h => by cases b <;> simp [GoValue.cmp] at h
  | .pointer _ _, b, p, h => by cases b <;> simp [GoValue.cmp] at h
  | .chan _ _, b, p, h => by cases b <;> simp [GoValue.cmp] at h
  | .slice _ _ _, b, p, h => by cases b <;> simp [GoValue.cmp] at h
  | .map _ _ _, b, p, h => by cases b <;> simp [GoValue.cmp] at h
  | .func _ _, b, p, h => by cases b <;> simp [GoValue.cmp] at h
  | .error _, b, p, h => by cases b <;> simp [GoValue.cmp] at h
/-- Every panic of the comparison of parts is the runtime error about a
non-comparable type. -/
theorem GoParts.partsCmp_error : (ps qs : GoParts) → (p : PanicValue) → ps.cmp qs = .error p →
    ∃ ty : GoType, p = .uncomparable ty ∧ ty.comparable = false
  | .nil, qs, p, h => by cases qs <;> simp [GoParts.cmp] at h
  | .consNil tail, qs, p, h => by
    cases qs <;> simp only [GoParts.cmp] at h <;> try cases h
    exact GoParts.partsCmp_error tail _ p h
  | .cons head tail, qs, p, h => by
    cases qs with
    | nil => simp [GoParts.cmp] at h
    | consNil _ => simp [GoParts.cmp] at h
    | cons b qs =>
      simp only [GoParts.cmp] at h
      by_cases hty : head.typeOf = b.typeOf
      · cases hc : b.typeOf.comparable
        · simp only [hty, ne_eq, not_true_eq_false, if_false, hc, if_true] at h
          exact ⟨b.typeOf, (Except.error.inj h).symm, hc⟩
        · simp only [hty, ne_eq, not_true_eq_false, if_false, hc, Bool.true_eq_false] at h
          cases hv : head.cmp b with
          | error q =>
            rw [hv] at h
            cases h
            exact GoValue.cmp_error head b _ hv
          | ok r =>
            rw [hv] at h
            cases r
            · cases h
            · exact GoParts.partsCmp_error tail qs p h
      · simp [hty] at h
end

/-- The comparison of two interface values does not depend on their order,
the panic included. -/
theorem ifaceEq_comm (x y : GoAny) : ifaceEq x y = ifaceEq y x := by
  cases x with
  | none => cases y <;> rfl
  | some a =>
    cases y with
    | none => rfl
    | some b =>
      unfold ifaceEq
      by_cases hty : a.typeOf = b.typeOf
      · simp [hty, GoValue.cmp_comm a b]
      · have hty' : ¬ b.typeOf = a.typeOf := fun h => hty h.symm
        simp [hty, hty']

/-- Every panic of the comparison of two interface values is the runtime
error about a non-comparable type. -/
theorem ifaceEq_error (x y : GoAny) (p : PanicValue) (h : ifaceEq x y = .error p) :
    ∃ ty : GoType, p = .uncomparable ty ∧ ty.comparable = false := by
  cases x with
  | none => cases y <;> simp [ifaceEq] at h
  | some a =>
    cases y with
    | none => simp [ifaceEq] at h
    | some b =>
      unfold ifaceEq at h
      by_cases hty : a.typeOf = b.typeOf
      · cases hc : b.typeOf.comparable
        · simp only [hty, ne_eq, not_true_eq_false, if_false, hc, if_true] at h
          exact ⟨b.typeOf, (Except.error.inj h).symm, hc⟩
        · simp only [hty, ne_eq, not_true_eq_false, if_false, hc, Bool.true_eq_false] at h
          exact GoValue.cmp_error a b p h
      · simp [hty] at h


theorem AssertEqual_of_ifaceEq (t : T) (x y : GoAny) (r : Bool) (h : ifaceEq x y = .ok r) :
    AssertEqual t x y =
      if r = false then
        .ok (t.Errorf "values differ:\nexpected: %v\nactual:   %v" [.value x, .value y])
      else .ok t := by
  unfold AssertEqual
  rw [h]
  cases r <;> rfl

theorem AssertNotEqual_of_ifaceEq (t : T) (x y : GoAny) (r : Bool) (h : ifaceEq x y = .ok r) :
    AssertNotEqual t x y =
      if r = true then
        .ok (t.Errorf "expected values to differ, but both are: %v" [.value x])
      else .ok t := by
  unfold AssertNotEqual
  rw [h]

/-- The helper leaves with the panic of the comparison, and with no other. -/
theorem AssertEqual_error_iff (t : T) (x y : GoAny) (p : PanicValue) :
    AssertEqual t x y = .error p ↔ ifaceEq x y = .error p := by
  unfold AssertEqual
  cases h : ifaceEq x y with
  | error q => simp
  | ok r => cases r <;> simp

theorem AssertNotEqual_error_iff (t : T) (x y : GoAny) (p : PanicValue) :
    AssertNotEqual t x y = .error p ↔ ifaceEq x y = .error p := by
  unfold AssertNotEqual
  cases h : ifaceEq x y with
  | error q => simp
  | ok r => cases r <;> simp

/-- The helper returns exactly when the comparison does. -/
theorem AssertEqual_ok_iff (t : T) (x y : GoAny) :
    (∃ t', AssertEqual t x y = .ok t') ↔ ∃ r, ifaceEq x y = .ok r := by
  unfold AssertEqual
  cases h : ifaceEq x y with
  | error q => simp
  | ok r => cases r <;> simp

theorem AssertNotEqual_ok_iff (t : T) (x y : GoAny) :
    (∃ t', AssertNotEqual t x y = .ok t') ↔ ∃ r, ifaceEq x y = .ok r := by
  unfold AssertNotEqual
  cases h : ifaceEq x y with
  | error q => simp
  | ok r => cases r <;> simp

/-- What `AssertEqual` does on two values of one comparable type, by the
result of comparing them. -/
theorem AssertEqual_same_type (t : T) (a b : GoValue) (hty : a.typeOf = b.typeOf)
    (hc : a.typeOf.comparable = true) :
    (okMarksFailed t (AssertEqual t (some a) (some b)) ↔ a.cmp b = .ok false) ∧
    (okReportsNothing t (AssertEqual t (some a) (some b)) ↔ a.cmp b = .ok true) := by
  have hi := ifaceEq_same_type a b hty hc
  cases h : a.cmp b with
  | error p =>
    rw [h] at hi
    rw [(AssertEqual_error_iff t _ _ p).mpr hi]
    simp [okMarksFailed, okReportsNothing]
  | ok r =>
    rw [h] at hi
    rw [AssertEqual_of_ifaceEq t _ _ r hi]
    cases r
    · exact ⟨iff_of_true (marksFailed_Errorf _ _ _) rfl,
        iff_of_false (not_reportsNothing_Errorf _ _ _) (by simp)⟩
    · exact ⟨iff_of_false (not_marksFailed_self t) (by simp),
        iff_of_true (reportsNothing_self t) rfl⟩

/-- What `AssertNotEqual` does on two values of one comparable type, by the
result of comparing them. -/
theorem AssertNotEqual_same_type (t : T) (a b : GoValue) (hty : a.typeOf = b.typeOf)
    (hc : a.typeOf.comparable = true) :
    (okMarksFailed t (AssertNotEqual t (some a) (some b)) ↔ a.cmp b = .ok true) ∧
    (okReportsNothing t (AssertNotEqual t (some a) (some b)) ↔ a.cmp b = .ok false) := by
  have hi := ifaceEq_same_type a b hty hc
  cases h : a.cmp b with
  | error p =>
    rw [h] at hi
    rw [(AssertNotEqual_error_iff t _ _ p).mpr hi]
    simp [okMarksFailed, okReportsNothing]
  | ok r =>
    rw [h] at hi
    rw [AssertNotEqual_of_ifaceEq t _ _ r hi]
    cases r
    · exact ⟨iff_of_false (not_marksFailed_self t) (by simp),
        iff_of_true (reportsNothing_self t) rfl⟩
    · exact ⟨iff_of_true (marksFailed_Errorf _ _ _) rfl,
        iff_of_false (not_reportsNothing_Errorf _ _ _) (by simp)⟩

/-! ## `AssertError` -/

/-- C1: `AssertError(t, nil, nil)` reports no failure, while for every non-nil
error `e` both `AssertError(t, nil, e)` and `AssertError(t, e, nil)` mark the
test as failed. -/
theorem AssertError_nil_handling (M : IsTable) (t : T) :
    reportsNothing t (AssertError M t none none) ∧
    ∀ e : GoError,
      marksFailed t (AssertError M t none (some e)) ∧
      marksFailed t (AssertError M t (some e) none) :=
  ⟨rfl, fun _ => ⟨marksFailed_Errorf _ _ _, marksFailed_Errorf _ _ _⟩⟩

/-- C2: `AssertError` is reflexive: for every error value `e`, nil or not, of
a comparable or a non-comparable dynamic type, with or without `Is` and
`Unwrap` methods, `AssertError(t, e, e)` reports no failure. -/
theorem AssertError_reflexive (M : IsTable) (t : T) (e : Error) :
    reportsNothing t (AssertError M t e e) := by
  cases e with
  | none => rfl
  | some e =>
    rw [AssertError_some_some]
    simp [reportsNothing]

/-- C3: `AssertError` accepts equal messages: for every two non-nil errors
`e1` and `e2` with `e1.Error() == e2.Error()`, `AssertError(t, e1, e2)` reports
no failure, whatever `errors.Is` says about them. -/
theorem AssertError_equal_messages (M : IsTable) (t : T) (e1 e2 : GoError)
    (h : e1.Error = e2.Error) :
    reportsNothing t (AssertError M t (some e1) (some e2)) := by
  rw [AssertError_some_some]
  simp [reportsNothing, h]

/-- C3, at two distinct `errors.New("test error")` values, neither of which
is in the `errors.Is` tree of the other. -/
theorem AssertError_equal_messages_witness :
    errorsIs noIsMethods (some (errorsNew 2 "test error")) (some (errorsNew 1 "test error"))
        = false ∧
    errorsIs noIsMethods (some (errorsNew 1 "test error")) (some (errorsNew 2 "test error"))
        = false ∧
    reportsNothing freshT
      (AssertError noIsMethods freshT (some (errorsNew 1 "test error"))
        (some (errorsNew 2 "test error"))) :=
  ⟨by decide, by decide,
    AssertError_equal_messages noIsMethods freshT (errorsNew 1 "test error")
      (errorsNew 2 "test error") (by decide)⟩

/-- C4 as stated fails: with `expected` a base error and `actual` an error
wrapping it under a different message, `actual` is not in the `errors.Is` tree
of `expected` and the messages differ, yet `AssertError(t, expected, actual)`
does not mark the test failed. -/
theorem AssertError_expected_tree_counterexample :
    errorsIs noIsMethods (some (errorsNew 1 "base"))
        (some (fmtErrorfW 2 "wrapped: base" (errorsNew 1 "base"))) = false ∧
    (errorsNew 1 "base").Error ≠ (fmtErrorfW 2 "wrapped: base" (errorsNew 1 "base")).Error ∧
    ¬ marksFailed freshT
      (AssertError noIsMethods freshT (some (errorsNew 1 "base"))
        (some (fmtErrorfW 2 "wrapped: base" (errorsNew 1 "base")))) ∧
    reportsNothing freshT
      (AssertError noIsMethods freshT (some (errorsNew 1 "base"))
        (some (fmtErrorfW 2 "wrapped: base" (errorsNew 1 "base")))) :=
  ⟨by decide, by decide, not_marksFailed_of_reportsNothing rfl, rfl⟩

/-- C4, amended: for every pair of non-nil errors,
`AssertError(t, expected, actual)` marks the test failed if and only if
`errors.Is(actual, expected)` is false (expected is not in the tree of actual)
and their `Error()` strings differ; in every other non-nil case it reports
nothing. -/
theorem AssertError_iff (M : IsTable) (t : T) (expected actual : GoError) :
    (marksFailed t (AssertError M t (some expected) (some actual)) ↔
      (errorsIs M (some actual) (some expected) = false ∧ expected.Error ≠ actual.Error)) ∧
    (reportsNothing t (AssertError M t (some expected) (some actual)) ↔
      ¬ (errorsIs M (some actual) (some expected) = false ∧
          expected.Error ≠ actual.Error)) := by
  rw [AssertError_some_some]
  by_cases h : errorsIs M (some actual) (some expected) = false ∧ expected.Error ≠ actual.Error
  · rw [if_pos h]
    exact ⟨iff_of_true (marksFailed_Errorf _ _ _) h,
      iff_of_false (not_reportsNothing_Errorf _ _ _) (not_not_intro h)⟩
  · rw [if_neg h]
    exact ⟨iff_of_false (not_marksFailed_self t) h, iff_of_true (reportsNothing_self t) h⟩

/-! ## `AssertBytes` -/

/-- C5: for every pair of byte slices, `AssertBytes(t, expected, actual)`
marks the test failed if and only if the slices differ in length or in some
element, and reports nothing otherwise; equal contents held in any two backing
arrays report nothing. -/
theorem AssertBytes_iff (t : T) (expected actual : ByteSlice) :
    (marksFailed t (AssertBytes t expected actual) ↔
      (expected.len ≠ actual.len ∨
        ∃ i, i < expected.len ∧ expected.elems[i]? ≠ actual.elems[i]?)) ∧
    (reportsNothing t (AssertBytes t expected actual) ↔
      ¬ (expected.len ≠ actual.len ∨
        ∃ i, i < expected.len ∧ expected.elems[i]? ≠ actual.elems[i]?)) ∧
    (∀ (p q : Option Nat) (xs : List Byte),
      reportsNothing t (AssertBytes t ⟨p, xs⟩ ⟨q, xs⟩)) := by
  have key : ∀ a b : ByteSlice, a.elems = b.elems → AssertBytes t a b = t := by
    intro a b h
    have := (bytesEqual_iff a b).mpr h
    simp [AssertBytes, this]
  refine ⟨?_, ?_, fun p q xs => key _ _ rfl⟩
  all_goals
    rw [show expected.len = expected.elems.length from rfl,
      show actual.len = actual.elems.length from rfl, ← list_ne_iff]
    by_cases h : expected.elems = actual.elems
    · rw [key _ _ h]
      simp [h, not_marksFailed_self, reportsNothing]
    · have hb : bytesEqual expected actual = false := by
        rw [← Bool.not_eq_true, bytesEqual_iff]
        exact h
      simp only [AssertBytes, hb, Bool.not_false, if_true, ne_eq, h, not_false_eq_true,
        iff_true, not_true_eq_false, iff_false]
      first
        | exact marksFailed_Errorf _ _ _
        | exact not_reportsNothing_Errorf _ _ _

/-! ## `AssertEqual` and `AssertNotEqual` -/

/-- C6 as stated fails: `float64` is a comparable type, yet for `v` the value
`math.NaN()` the call `AssertEqual(t, v, v)` marks the test failed. -/
theorem AssertEqual_nan_counterexample :
    (GoValue.float64 nanBits).typeOf.comparable = true ∧
    okMarksFailed freshT
      (AssertEqual freshT (some (.float64 nanBits)) (some (.float64 nanBits))) ∧
    ¬ okReportsNothing freshT
      (AssertEqual freshT (some (.float64 nanBits)) (some (.float64 nanBits))) :=
  ⟨by decide, marksFailed_Errorf _ _ _, not_reportsNothing_Errorf _ _ _⟩

/-- C6, amended: for every two values of the same comparable type,
`AssertEqual(t, expected, actual)` returns normally and marks the test failed
if and only if the comparison `expected == actual` of the dynamic values
yields false, and reports nothing if and only if it yields true; for
booleans, integers, strings, pointers and channels it yields true exactly
when the two values are the same; and `AssertEqual(t, v, v)` never marks the
test failed for a `v` that neither is nor contains a floating-point NaN: it
reports nothing, unless `v` is a struct or array holding a slice, map or
function in a part of interface type, where the comparison panics. -/
theorem AssertEqual_iff (t : T) (expected actual : GoValue)
    (hty : expected.typeOf = actual.typeOf) (hc : expected.typeOf.comparable = true) :
    (okMarksFailed t (AssertEqual t (some expected) (some actual)) ↔
      expected.cmp actual = .ok false) ∧
    (okReportsNothing t (AssertEqual t (some expected) (some actual)) ↔
      expected.cmp actual = .ok true) ∧
    (expected.isPlain = true → (expected.cmp actual = .ok true ↔ expected = actual)) ∧
    (expected.containsNaN = false →
      ¬ okMarksFailed t (AssertEqual t (some expected) (some expected)) ∧
      (okReportsNothing t (AssertEqual t (some expected) (some expected)) ∨
        ∃ p, AssertEqual t (some expected) (some expected) = .error p)) ∧
    (expected.containsNaN = false → expected.isComposite = false →
      okReportsNothing t (AssertEqual t (some expected) (some expected))) := by
  have hself := AssertEqual_same_type t expected expected rfl hc
  have hne : expected.containsNaN = false → expected.cmp expected = .ok true ∨
      ∃ p, expected.cmp expected = .error p := by
    intro hn
    have h := GoValue.cmp_self expected hc hn
    cases hv : expected.cmp expected with
    | error p => exact Or.inr ⟨p, rfl⟩
    | ok r =>
      cases r
      · exact absurd hv h
      · exact Or.inl rfl
  refine ⟨(AssertEqual_same_type t expected actual hty hc).1,
    (AssertEqual_same_type t expected actual hty hc).2,
    GoValue.cmp_iff_of_isPlain expected actual hty, fun hn => ⟨?_, ?_⟩, fun hn hcomp => ?_⟩
  · rw [hself.1]
    exact GoValue.cmp_self expected hc hn
  · rcases hne hn with h | ⟨p, h⟩
    · exact Or.inl (hself.2.mpr h)
    · refine Or.inr ⟨p, (AssertEqual_error_iff t _ _ p).mpr ?_⟩
      rw [ifaceEq_same_type expected expected rfl hc, h]
  · rcases hne hn with h | ⟨p, h⟩
    · exact hself.2.mpr h
    · obtain ⟨r, hr⟩ := GoValue.cmp_ok_of_not_composite expected expected hcomp
      rw [hr] at h
      cases h

/-- C6, amended, at the integers of `TestAssertEqual_NotEqual` and
`TestAssertEqual_Equal`: `AssertEqual(t, 42, 43)` marks the test failed and
`AssertEqual(t, 42, 42)` reports nothing; and at two arrays: one holding a NaN
fails against itself, one holding 1.0 does not. -/
theorem AssertEqual_iff_witness :
    (GoValue.int 42).typeOf = (GoValue.int 43).typeOf ∧
    (GoValue.int 42).typeOf.comparable = true ∧
    okMarksFailed freshT (AssertEqual freshT (some (.int 42)) (some (.int 43))) ∧
    ¬ okReportsNothing freshT (AssertEqual freshT (some (.int 42)) (some (.int 43))) ∧
    okReportsNothing freshT (AssertEqual freshT (some (.int 42)) (some (.int 42))) ∧
    okMarksFailed freshT (AssertEqual freshT (some nanArray) (some nanArray)) ∧
    okReportsNothing freshT
      (AssertEqual freshT
        (some (.composite "[1]float64" true (.cons (.float64 0x3FF0000000000000) .nil)))
        (some (.composite "[1]float64" true (.cons (.float64 0x3FF0000000000000) .nil)))) :=
  ⟨rfl, rfl,
    (AssertEqual_iff freshT (.int 42) (.int 43) rfl rfl).1.mpr rfl,
    fun h => absurd ((AssertEqual_iff freshT (.int 42) (.int 43) rfl rfl).2.1.mp h)
      (by simp [GoValue.cmp]),
    (AssertEqual_iff freshT (.int 42) (.int 43) rfl rfl).2.2.2.2 rfl rfl,
    (AssertEqual_iff freshT nanArray nanArray rfl rfl).1.mpr rfl,
    ((AssertEqual_iff freshT
      (.composite "[1]float64" true (.cons (.float64 0x3FF0000000000000) .nil))
      (.composite "[1]float64" true (.cons (.float64 0x3FF0000000000000) .nil))
      rfl rfl).2.1).mpr rfl⟩

/-- C7: for every two values of the same comparable type,
`AssertNotEqual(t, expected, actual)` returns normally and marks the test
failed if and only if the comparison `expected == actual` of the dynamic
values yields true, and reports nothing if and only if it yields false; for
booleans, integers, strings, pointers and channels it yields true exactly
when the two values are the same. -/
theorem AssertNotEqual_iff (t : T) (expected actual : GoValue)
    (hty : expected.typeOf = actual.typeOf) (hc : expected.typeOf.comparable = true) :
    (okMarksFailed t (AssertNotEqual t (some expected) (some actual)) ↔
      expected.cmp actual = .ok true) ∧
    (okReportsNothing t (AssertNotEqual t (some expected) (some actual)) ↔
      expected.cmp actual = .ok false) ∧
    (expected.isPlain = true → (expected.cmp actual = .ok true ↔ expected = actual)) :=
  ⟨(AssertNotEqual_same_type t expected actual hty hc).1,
    (AssertNotEqual_same_type t expected actual hty hc).2,
    GoValue.cmp_iff_of_isPlain expected actual hty⟩

/-- C7, at the values of `TestAssertNotEqual_NotEqual` and
`TestAssertNotEqual_Equal`: `AssertNotEqual(t, "foo", "bar")` reports nothing
and `AssertNotEqual(t, 42, 42)` marks the test failed. -/
theorem AssertNotEqual_iff_witness :
    (GoValue.string "foo").typeOf = (GoValue.string "bar").typeOf ∧
    (GoValue.string "foo").typeOf.comparable = true ∧
    okReportsNothing freshT
      (AssertNotEqual freshT (some (.string "foo")) (some (.string "bar"))) ∧
    okMarksFailed freshT (AssertNotEqual freshT (some (.int 42)) (some (.int 42))) :=
  ⟨rfl, rfl,
    (AssertNotEqual_iff freshT (.string "foo") (.string "bar") rfl rfl).2.1.mpr rfl,
    (AssertNotEqual_iff freshT (.int 42) (.int 42) rfl rfl).1.mpr rfl⟩

/-! ## `AssertNil` and `AssertNotNil` -/

/-- C8: `AssertNil` reports no failure for an untyped nil and for a nil
error-interface variable, and marks the test failed for every non-nil error
value. -/
theorem AssertNil_nil_and_errors (t : T) :
    reportsNothing t (AssertNil t none) ∧
    reportsNothing t (AssertNil t (Error.toAny none)) ∧
    ∀ e : GoError, marksFailed t (AssertNil t (Error.toAny (some e))) :=
  ⟨rfl, rfl, fun _ => marksFailed_Errorf _ _ _⟩

/-- C9: `AssertNotNil` marks the test failed for a nil error-interface
variable and reports no failure for every non-nil interface value, among them
every non-nil error and the integer 42. -/
theorem AssertNotNil_nil_and_values (t : T) :
    marksFailed t (AssertNotNil t (Error.toAny none)) ∧
    (∀ v : GoValue, reportsNothing t (AssertNotNil t (some v))) ∧
    (∀ e : GoError, reportsNothing t (AssertNotNil t (Error.toAny (some e)))) ∧
    reportsNothing t (AssertNotNil t (some (.int 42))) :=
  ⟨marksFailed_Error _ _, fun _ => rfl, fun _ => rfl, rfl⟩

/-- C10 as stated fails: a nil `*http.Response` pointer passed as the value
argument is a non-nil interface value, so `AssertNil` marks the test failed
and `AssertNotNil` reports nothing. -/
theorem AssertNil_nil_pointer_counterexample :
    (AssertNil freshT (some (.pointer "http.Response" 0))).Failed = true ∧
    ¬ reportsNothing freshT (AssertNil freshT (some (.pointer "http.Response" 0))) ∧
    (AssertNotNil freshT (some (.pointer "http.Response" 0))).Failed = false ∧
    ¬ marksFailed freshT (AssertNotNil freshT (some (.pointer "http.Response" 0))) :=
  ⟨rfl, not_reportsNothing_Errorf _ _ _, rfl, not_marksFailed_self _⟩

/-- C10, amended: `AssertNil` accepts exactly the nil interface value and
`AssertNotNil` rejects exactly that value; a nil pointer, nil slice or nil map
passed as the value argument is held in a non-nil interface value, so
`AssertNil` marks the test failed for it and `AssertNotNil` reports
nothing. -/
theorem AssertNil_interface_nil_only (t : T) :
    (∀ value : GoAny, reportsNothing t (AssertNil t value) ↔ value = none) ∧
    (∀ value : GoAny, marksFailed t (AssertNotNil t value) ↔ value = none) ∧
    (∀ elem key : String,
      marksFailed t (AssertNil t (some (.pointer elem 0))) ∧
      marksFailed t (AssertNil t (some (.slice elem none 0))) ∧
      marksFailed t (AssertNil t (some (.map key elem 0))) ∧
      reportsNothing t (AssertNotNil t (some (.pointer elem 0))) ∧
      reportsNothing t (AssertNotNil t (some (.slice elem none 0))) ∧
      reportsNothing t (AssertNotNil t (some (.map key elem 0)))) := by
  refine ⟨fun value => ?_, fun value => ?_, fun _ _ =>
    ⟨marksFailed_Errorf _ _ _, marksFailed_Errorf _ _ _, marksFailed_Errorf _ _ _,
      rfl, rfl, rfl⟩⟩
  · cases value with
    | none => exact iff_of_true rfl rfl
    | some v => exact iff_of_false (not_reportsNothing_Errorf _ _ _) (by simp)
  · cases value with
    | none => exact iff_of_true (marksFailed_Error _ _) rfl
    | some v => exact iff_of_false (not_marksFailed_self t) (by simp)

/-! ## `AssertPanic` -/

/-- C11: for every function `f` that panics with a non-nil panic value and
every `msg`, `AssertPanic(t, f, msg)` recovers the panic, returns normally to
its caller and reports no failure: the test state is as `f` left it. -/
theorem AssertPanic_recovers (t : T) (f : GoFunc) (msg : String) (v : GoValue)
    (hf : (f t).2 = .panicked (some v)) :
    (AssertPanic t f msg).2 = .returned ∧
    reportsNothing (f t).1 (AssertPanic t f msg).1 := by
  unfold AssertPanic
  rcases hft : f t with ⟨t1, c⟩
  rw [hft] at hf
  simp only at hf
  subst hf
  exact ⟨rfl, rfl⟩

/-- C11, at the function of `TestAssertPanic_Panics`, which panics with the
string "expected panic", and the empty `msg`. -/
theorem AssertPanic_recovers_witness :
    (AssertPanic freshT (fun t => (t, .panicked (some (.string "expected panic")))) "").2
      = .returned ∧
    reportsNothing freshT
      (AssertPanic freshT (fun t => (t, .panicked (some (.string "expected panic")))) "").1 :=
  AssertPanic_recovers freshT (fun t => (t, .panicked (some (.string "expected panic")))) ""
    (.string "expected panic") rfl

/-- C12: for every function `f` that returns normally and every `msg`,
`AssertPanic(t, f, msg)` returns and marks the test as failed, with one report
added to the state `f` left. -/
theorem AssertPanic_no_panic (t : T) (f : GoFunc) (msg : String)
    (hf : (f t).2 = .returned) :
    (AssertPanic t f msg).2 = .returned ∧
    marksFailed (f t).1 (AssertPanic t f msg).1 := by
  unfold AssertPanic
  rcases hft : f t with ⟨t1, c⟩
  rw [hft] at hf
  simp only at hf
  subst hf
  exact ⟨rfl, marksFailed_Errorf _ _ _⟩

/-- C12, at a function that does nothing, with and without a message. -/
theorem AssertPanic_no_panic_witness :
    (AssertPanic freshT (fun t => (t, .returned)) "must panic").2 = .returned ∧
    marksFailed freshT (AssertPanic freshT (fun t => (t, .returned)) "must panic").1 :=
  AssertPanic_no_panic freshT (fun t => (t, .returned)) "must panic" rfl

/-- C13, the code at the failing input: `f` panics with the string "boom",
`msg` is "expected message"; no failure is reported although the message of
the panic differs from `msg`. -/
theorem AssertPanic_ignores_msg :
    AssertPanic freshT (fun t => (t, .panicked (some (.string "boom")))) "expected message"
      = (freshT, .returned) :=
  rfl

/-! ## `RandomBytes` -/

/-- A length that is negative or above the allocation limit: `make` panics. -/
theorem RandomBytes_of_bad_len (rt : Runtime) (src : RandSource) (n : Int)
    (h : n < 0 ∨ (rt.maxAlloc : Int) < n) :
    RandomBytes rt src n = (src, .panicked (some (.error makesliceLenError))) := by
  unfold RandomBytes makeBytes
  rw [if_pos h]

/-- The length zero: nothing is allocated and the source is not read. -/
theorem RandomBytes_zero (rt : Runtime) (src : RandSource) :
    RandomBytes rt src 0 = (src, .returned { array := some rt.zerobase, elems := [] }) := by
  have hguard : ¬ ((0 : Int) < 0 ∨ (rt.maxAlloc : Int) < 0) := by
    rintro (h | h) <;> omega
  unfold RandomBytes makeBytes
  rw [if_neg hguard, if_pos rfl]
  rfl

/-- A positive length inside the limit for which no memory is left. -/
theorem RandomBytes_out_of_memory (rt : Runtime) (src : RandSource) (n : Int)
    (hguard : ¬ (n < 0 ∨ (rt.maxAlloc : Int) < n)) (h0 : n ≠ 0)
    (ha : rt.alloc n.toNat = none) :
    RandomBytes rt src n = (src, .aborted) := by
  unfold RandomBytes makeBytes
  rw [if_neg hguard, if_neg h0, ha]

/-- A positive length inside the limit, allocated at `addr`: what happens is
up to the random source. -/
theorem RandomBytes_allocated (rt : Runtime) (src : RandSource) (n : Int) (addr : Nat)
    (hguard : ¬ (n < 0 ∨ (rt.maxAlloc : Int) < n)) (h0 : n ≠ 0)
    (ha : rt.alloc n.toNat = some addr) :
    (RandomBytes rt src n).2 =
      match src.failure with
      | some err =>
        if rt.readErrorIsFatal then .aborted
        else .panicked (some (.string ("failed to generate random bytes: " ++ err.Error)))
      | none => .returned { array := some addr, elems := (List.range n.toNat).map src.stream } := by
  have hnat : n.toNat ≠ 0 := by omega
  have hlen : ¬ (ByteSlice.len { array := some addr, elems := List.replicate n.toNat 0 } = 0) := by
    simpa [ByteSlice.len] using hnat
  unfold RandomBytes makeBytes
  rw [if_neg hguard, if_neg h0, ha]
  simp only [randRead, if_neg hlen]
  cases src.failure with
  | none => simp [ByteSlice.len]
  | some err => cases rt.readErrorIsFatal <;> rfl

/-- What `RandomBytes` does for a length inside the allocation limit when
the allocation succeeds and the source delivers. -/
theorem RandomBytes_returned (rt : Runtime) (src : RandSource) (n : Int) (hn : 0 ≤ n)
    (hmax : n ≤ rt.maxAlloc) (halloc : n = 0 ∨ ∃ addr, rt.alloc n.toNat = some addr)
    (hsrc : n = 0 ∨ src.failure = none) :
    ∃ b : ByteSlice, (RandomBytes rt src n).2 = .returned b ∧ (b.len : Int) = n := by
  have hguard : ¬ (n < 0 ∨ (rt.maxAlloc : Int) < n) := by
    rintro (h | h) <;> omega
  by_cases h0 : n = 0
  · subst h0
    exact ⟨{ array := some rt.zerobase, elems := [] }, by rw [RandomBytes_zero], rfl⟩
  · obtain ⟨addr, haddr⟩ := halloc.resolve_left h0
    have hs : src.failure = none := hsrc.resolve_left h0
    refine ⟨{ array := some addr, elems := (List.range n.toNat).map src.stream }, ?_, ?_⟩
    · rw [RandomBytes_allocated rt src n addr hguard h0 haddr, hs]
    · simp [ByteSlice.len, Int.toNat_of_nonneg hn]

/-- C14 as stated fails: `1 << 62` is a non-negative `int`, the random source
is in working order, and `RandomBytes(1 << 62)` does not return a slice:
`make` panics with `makeslice: len out of range`. Nor does it return for a
length inside the limit for which no memory is left (the process is ended),
or for a positive length when the random source fails. -/
theorem RandomBytes_huge_counterexample :
    amd64.isInt (2 ^ 62) = true ∧ (0 : Int) ≤ 2 ^ 62 ∧ countingSource.failure = none ∧
    (RandomBytes amd64 countingSource (2 ^ 62)).2
      = .panicked (some (.error makesliceLenError)) ∧
    (RandomBytes amd64 countingSource (2 ^ 40)).2 = .aborted ∧
    (RandomBytes amd64 brokenSource 4).2
      = .panicked (some (.string
          "failed to generate random bytes: entropy source unavailable")) :=
  ⟨by decide, by decide, rfl, rfl, rfl, rfl⟩

/-- C14, amended: for every `int` `n >= 0`, zero included, that does not
exceed the allocation limit of `make`, `RandomBytes(n)` returns a slice whose
length is exactly `n`, the allocation succeeding and the random source
delivering (for `n = 0` nothing is allocated and the source is not read). -/
theorem RandomBytes_length (rt : Runtime) (src : RandSource) (n : Int)
    (_hint : rt.isInt n = true) (hn : 0 ≤ n) (hmax : n ≤ rt.maxAlloc)
    (halloc : n = 0 ∨ ∃ addr, rt.alloc n.toNat = some addr)
    (hsrc : n = 0 ∨ src.failure = none) :
    ∃ b : ByteSlice, (RandomBytes rt src n).2 = .returned b ∧ (b.len : Int) = n :=
  RandomBytes_returned rt src n hn hmax halloc hsrc

/-- C14, amended, at the sizes 0 and 1024 of `TestRandomBytes_Length`; at the
size 0 also with a source that is out of order. -/
theorem RandomBytes_length_witness :
    (∃ b : ByteSlice,
      (RandomBytes amd64 brokenSource 0).2 = .returned b ∧ (b.len : Int) = 0) ∧
    (∃ b : ByteSlice,
      (RandomBytes amd64 countingSource 1024).2 = .returned b ∧ (b.len : Int) = 1024) :=
  ⟨RandomBytes_length amd64 brokenSource 0 (by decide) (by decide) (by decide)
      (Or.inl rfl) (Or.inl rfl),
    RandomBytes_length amd64 countingSource 1024 (by decide) (by decide) (by decide)
      (Or.inr ⟨0xC000100000, by decide⟩) (Or.inr rfl)⟩

/-! ## Panics of `AssertEqual` and `AssertNotEqual` -/

/-- The interface comparison of two values of one non-comparable dynamic
type panics. -/
theorem ifaceEq_uncomparable (a b : GoValue) (h : uncomparablePair (some a) (some b) = true) :
    ifaceEq (some a) (some b) = .error (.uncomparable a.typeOf) := by
  simp only [uncomparablePair, Bool.and_eq_true, decide_eq_true_eq, Bool.not_eq_true'] at h
  have hc : b.typeOf.comparable = false := h.1 ▸ h.2
  unfold ifaceEq
  simp [h.1, hc]

/-- The interface comparison does not panic when an argument is nil, when the
dynamic types differ, or when the first value is of a comparable type and not
composite. -/
theorem ifaceEq_ok_of_simple (x y : GoAny)
    (h : x = none ∨ y = none ∨
      ∃ a b, x = some a ∧ y = some b ∧
        (a.typeOf ≠ b.typeOf ∨ (a.typeOf.comparable = true ∧ a.isComposite = false))) :
    ∃ r, ifaceEq x y = .ok r := by
  rcases h with h | h | ⟨a, b, hx, hy, h⟩
  · subst h
    cases y <;> exact ⟨_, rfl⟩
  · subst h
    cases x <;> exact ⟨_, rfl⟩
  · subst hx
    subst hy
    by_cases hty : a.typeOf = b.typeOf
    · rcases h with h | ⟨hc, hcomp⟩
      · exact absurd hty h
      · rw [ifaceEq_same_type a b hty hc]
        exact GoValue.cmp_ok_of_not_composite a b hcomp
    · exact ⟨false, by simp [ifaceEq, hty]⟩

/-- C15 as stated fails: `AssertEqual(t, s, s)` and `AssertNotEqual(t, s, s)`
for a slice `s` of type `[]int` do not return: the comparison panics with
`runtime error: comparing uncomparable type []int`. -/
theorem AssertEqual_slice_counterexample :
    AssertEqual freshT (some (.slice "int" (some 1) 3)) (some (.slice "int" (some 1) 3))
      = .error (.uncomparable (.slice "int")) ∧
    AssertNotEqual freshT (some (.slice "int" (some 1) 3)) (some (.slice "int" (some 1) 3))
      = .error (.uncomparable (.slice "int")) :=
  ⟨rfl, rfl⟩

/-- C15, amended: the helpers raise nothing of their own: `AssertEqual` and
`AssertNotEqual` return normally exactly when the comparison of the two
argument values does not panic, and leave with the panic of the comparison
otherwise, which is always the runtime error "comparing uncomparable type".
The comparison does not panic when an argument is nil, when the dynamic types
differ, or for values of a comparable type that are not composite (booleans,
numbers, strings, pointers, channels). It panics for two values of the same
non-comparable dynamic type (slices, maps, functions), and for two values of
one struct or array type it can panic inside, at a part of interface type, as
for `box{v any}` holding a slice. -/
theorem AssertEqual_returns_iff (t : T) :
    (∀ x y : GoAny, (∃ t', AssertEqual t x y = .ok t') ↔ ∃ r, ifaceEq x y = .ok r) ∧
    (∀ x y : GoAny, (∃ t', AssertNotEqual t x y = .ok t') ↔ ∃ r, ifaceEq x y = .ok r) ∧
    (∀ (x y : GoAny) (p : PanicValue),
      (AssertEqual t x y = .error p ↔ ifaceEq x y = .error p) ∧
      (AssertNotEqual t x y = .error p ↔ ifaceEq x y = .error p) ∧
      (ifaceEq x y = .error p → ∃ ty : GoType, p = .uncomparable ty ∧ ty.comparable = false)) ∧
    (∀ x y : GoAny,
      (x = none ∨ y = none ∨
        ∃ a b, x = some a ∧ y = some b ∧
          (a.typeOf ≠ b.typeOf ∨ (a.typeOf.comparable = true ∧ a.isComposite = false))) →
      (∃ t', AssertEqual t x y = .ok t') ∧ (∃ t', AssertNotEqual t x y = .ok t')) ∧
    (∀ a b : GoValue, uncomparablePair (some a) (some b) = true →
      AssertEqual t (some a) (some b) = .error (.uncomparable a.typeOf) ∧
      AssertNotEqual t (some a) (some b) = .error (.uncomparable a.typeOf)) ∧
    (uncomparablePair (some boxedSlice) (some boxedSlice) = false ∧
      AssertEqual t (some boxedSlice) (some boxedSlice)
        = .error (.uncomparable (.slice "int")) ∧
      AssertNotEqual t (some boxedSlice) (some boxedSlice)
        = .error (.uncomparable (.slice "int"))) :=
  ⟨AssertEqual_ok_iff t, AssertNotEqual_ok_iff t,
    fun x y p => ⟨AssertEqual_error_iff t x y p, AssertNotEqual_error_iff t x y p,
      ifaceEq_error x y p⟩,
    fun x y h => ⟨(AssertEqual_ok_iff t x y).mpr (ifaceEq_ok_of_simple x y h),
      (AssertNotEqual_ok_iff t x y).mpr (ifaceEq_ok_of_simple x y h)⟩,
    fun a b h => ⟨(AssertEqual_error_iff t _ _ _).mpr (ifaceEq_uncomparable a b h),
      (AssertNotEqual_error_iff t _ _ _).mpr (ifaceEq_uncomparable a b h)⟩,
    rfl, rfl, rfl⟩

/-- C15, amended, at values the tests pass: the integers 5 and 5, a
`time.Time` against itself, a nil against an integer return normally; two
maps of one type do not. -/
theorem AssertEqual_returns_iff_witness :
    (∃ t', AssertEqual freshT (some (.int 5)) (some (.int 5)) = .ok t') ∧
    (∃ t', AssertEqual freshT (some someTime) (some someTime) = .ok t') ∧
    (∃ t', AssertNotEqual freshT none (some (.int 5)) = .ok t') ∧
    AssertEqual freshT (some (.map "string" "int" 7)) (some (.map "string" "int" 8))
      = .error (.uncomparable (.map "string" "int")) :=
  ⟨((AssertEqual_returns_iff freshT).2.2.2.1 _ _
      (Or.inr (Or.inr ⟨.int 5, .int 5, rfl, rfl, Or.inr ⟨rfl, rfl⟩⟩))).1,
    ((AssertEqual_returns_iff freshT).1 _ _).mpr ⟨true, rfl⟩,
    ((AssertEqual_returns_iff freshT).2.2.2.1 _ _ (Or.inl rfl)).2,
    ((AssertEqual_returns_iff freshT).2.2.2.2.1 (.map "string" "int" 7) (.map "string" "int" 8)
      rfl).1⟩

/-! ## Asymmetry of `AssertError` -/

/-- C19: `AssertError` is not symmetric in its arguments: there are errors
`base` and `wrapped`, where `wrapped` wraps `base` and has a different
message, such that `AssertError(t, base, wrapped)` reports no failure while
`AssertError(t, wrapped, base)` marks the test failed. -/
theorem AssertError_not_symmetric :
    ∃ base wrapped : GoError,
      wrapped.unwrap = .single base ∧ base.Error ≠ wrapped.Error ∧
      ∀ (M : IsTable) (t : T),
        reportsNothing t (AssertError M t (some base) (some wrapped)) ∧
        marksFailed t (AssertError M t (some wrapped) (some base)) := by
  refine ⟨errorsNew 1 "base", fmtErrorfW 2 "wrapped: base" (errorsNew 1 "base"), rfl,
    by decide, fun M t => ⟨?_, ?_⟩⟩
  · have h : errorsIs M (some (fmtErrorfW 2 "wrapped: base" (errorsNew 1 "base")))
        (some (errorsNew 1 "base")) = true := by
      simp [errorsIs, errorsNew, fmtErrorfW, is, isUnwrapped, callIs, GoError.eq, GoError.typ,
        GoError.ident, GoError.isMethod, GoType.comparable]
    rw [AssertError_some_some]
    simp [h, reportsNothing]
  · have h : errorsIs M (some (errorsNew 1 "base"))
        (some (fmtErrorfW 2 "wrapped: base" (errorsNew 1 "base"))) = false := by
      simp [errorsIs, errorsNew, fmtErrorfW, is, isUnwrapped, callIs, GoError.eq, GoError.typ,
        GoError.ident, GoError.isMethod, GoType.comparable]
    have hm : (errorsNew 1 "base").Error
        ≠ (fmtErrorfW 2 "wrapped: base" (errorsNew 1 "base")).Error := by decide
    rw [AssertError_some_some, if_pos ⟨h, fun h' => hm h'.symm⟩]
    exact marksFailed_Errorf _ _ _

/-! ## Dynamic types in `AssertEqual` and `AssertNotEqual` -/

/-- C20: for every pair of values with different dynamic types, `AssertEqual`
returns and marks the test failed and `AssertNotEqual` returns and reports
nothing, whatever the values are. -/
theorem AssertEqual_type_sensitive (t : T) (a b : GoValue) (h : a.typeOf ≠ b.typeOf) :
    okMarksFailed t (AssertEqual t (some a) (some b)) ∧
    okReportsNothing t (AssertNotEqual t (some a) (some b)) := by
  have hi : ifaceEq (some a) (some b) = .ok false := by simp [ifaceEq, h]
  constructor
  · unfold AssertEqual
    rw [hi]
    exact marksFailed_Errorf _ _ _
  · unfold AssertNotEqual
    rw [hi]
    exact reportsNothing_self t

/-- C20, at the `int` 5 and the `int64` 5, which are numerically identical. -/
theorem AssertEqual_type_sensitive_witness :
    (GoValue.int 5).typeOf ≠ (GoValue.int64 5).typeOf ∧
    okMarksFailed freshT (AssertEqual freshT (some (.int 5)) (some (.int64 5))) ∧
    okReportsNothing freshT (AssertNotEqual freshT (some (.int 5)) (some (.int64 5))) :=
  ⟨by decide, AssertEqual_type_sensitive freshT (.int 5) (.int64 5) (by decide)⟩

/-! ## Mocks and expectations -/

/-- Exhausted expectations are passed over when a call is matched. -/
theorem findMatch_append_exhausted (ctrl : Controller) (m : String) (a : List GoAny)
    (D L : List Expectation) (pos : Nat) (hD : ∀ d ∈ D, d.remaining = some 0) :
    findMatch ctrl m a (D ++ L) pos = findMatch ctrl m a L (pos + D.length) := by
  induction D generalizing pos with
  | nil => simp
  | cons d D ih =>
    have hd : d.remaining = some 0 := hD d (List.mem_cons_self _ _)
    have hacc : d.accepts ctrl m a = false := by
      simp [Expectation.accepts, Expectation.exhausted, hd]
    have hrest : ∀ x ∈ D, x.remaining = some 0 := fun x hx => hD x (List.mem_cons_of_mem _ hx)
    have hstep : findMatch ctrl m a (d :: (D ++ L)) pos
        = findMatch ctrl m a (D ++ L) (pos + 1) := by
      simp [findMatch, hacc]
    rw [List.cons_append, hstep, ih (pos + 1) hrest, List.length_cons, Nat.add_assoc,
      Nat.add_comm 1]

/-- A call is matched against the first expectation that is not exhausted,
when that one accepts it: it is consumed and its return values come back. -/
theorem Call_pending (D P : List Expectation) (e : Expectation) (m : String)
    (a : List GoAny) (hD : ∀ d ∈ D, d.remaining = some 0) (he : e.remaining = some 1)
    (hm : e.method = m) (ha : argsMatch e.matchers a = true)
    (hafter : ∀ i ∈ e.after, i < D.length) :
    Controller.Call (D ++ e :: P) m a = some (D ++ e.consume :: P, e.returns) := by
  have hpre : prereqsSatisfied (D ++ e :: P) e = true := by
    unfold prereqsSatisfied
    rw [List.all_eq_true]
    intro i hi
    have hlt : i < D.length := hafter i hi
    rw [List.getElem?_append_left hlt, List.getElem?_eq_getElem hlt]
    simp [Expectation.satisfied, hD _ (List.getElem_mem hlt)]
  have hacc : e.accepts (D ++ e :: P) m a = true := by
    simp [Expectation.accepts, hm, ha, Expectation.exhausted, he, hpre]
  have hget : (D ++ e :: P)[D.length]? = some e := by
    rw [List.getElem?_append_right (Nat.le_refl _)]
    simp
  have hset : (D ++ e :: P).set D.length e.consume = D ++ e.consume :: P := by
    rw [List.set_append_right _ _ (Nat.le_refl _)]
    simp
  unfold Controller.Call
  rw [findMatch_append_exhausted _ _ _ _ _ _ hD]
  simp only [findMatch, hacc, if_true, Nat.zero_add, hget, hset]

theorem consume_expect_remaining (e : Expectation) (he : e.remaining = some 1) :
    e.consume.remaining = some 0 := by
  simp [Expectation.consume, he]

/-- Replaying calls against expectations each ordered after its predecessor,
behind expectations that are all consumed. -/
theorem replay_chainAfter (specs : List (String × List Matcher × List GoAny))
    (calls : List (String × List GoAny))
    (h : List.Forall₂ (fun s c => s.1 = c.1 ∧ argsMatch s.2.1 c.2 = true) specs calls) :
    ∀ (D : List Expectation) (prev : Nat), (∀ d ∈ D, d.remaining = some 0) → prev < D.length →
      replay (D ++ chainAfter prev (specs.map fun s => expect s.1 s.2.1 s.2.2)) calls
        = some (specs.map fun s => s.2.2) := by
  induction h with
  | nil => intro D prev _ _; rfl
  | @cons s c specs calls hsc _ ih =>
    intro D prev hD hprev
    obtain ⟨m, a⟩ := c
    have hcall := Call_pending D
      (chainAfter (prev + 1) (specs.map fun s => expect s.1 s.2.1 s.2.2))
      { expect s.1 s.2.1 s.2.2 with after := prev :: (expect s.1 s.2.1 s.2.2).after } m a hD rfl
      hsc.1 hsc.2 (by intro i hi; simp [expect] at hi; omega)
    have hD' : ∀ d ∈ D ++ [Expectation.consume
        { expect s.1 s.2.1 s.2.2 with after := prev :: (expect s.1 s.2.1 s.2.2).after }],
        d.remaining = some 0 := by
      intro d hd
      rcases List.mem_append.mp hd with hd | hd
      · exact hD d hd
      · rw [List.mem_singleton.mp hd]
        rfl
    have hnext := ih (D ++ [Expectation.consume
        { expect s.1 s.2.1 s.2.2 with after := prev :: (expect s.1 s.2.1 s.2.2).after }])
      (prev + 1) hD' (by simp; omega)
    rw [List.append_assoc, List.singleton_append] at hnext
    simp only [List.map_cons, chainAfter, replay, mockMethod, hcall, hnext, Option.map_some']
    rfl

/-- C16: for every mock method with a single expectation configured with
`Return(v1..vk)` whose argument matchers accept the call, invoking the method
returns exactly `v1..vk` and consumes the expectation; a configured error is
among the returned values as the value that was configured. -/
theorem mockMethod_returns_configured (method : String) (matchers : List Matcher)
    (values : List GoAny) (args : List GoAny) (h : argsMatch matchers args = true) :
    mockMethod [expect method matchers values] method args
      = some ([(expect method matchers values).consume], values) :=
  Call_pending [] [] (expect method matchers values) method args
    (fun _ hd => absurd hd (List.not_mem_nil _)) rfl rfl h
    (fun _ hi => absurd hi (List.not_mem_nil _))

/-- C16, at `TestMockReader_ReadError`: the expectation
`Read(gomock.Any()).Return(0, expectedErr)` and a call of `Read` with a
buffer; the call returns 0 and the configured error, which `AssertError` then
accepts. -/
theorem mockMethod_returns_configured_witness :
    argsMatch [anyMatcher] [some (.slice "uint8" (some 1) 10)] = true ∧
    mockMethod
        [expect "Read" [anyMatcher]
          [some (.int 0), Error.toAny (some (errorsNew 7 "read error"))]]
        "Read" [some (.slice "uint8" (some 1) 10)]
      = some
        ([(expect "Read" [anyMatcher]
            [some (.int 0), Error.toAny (some (errorsNew 7 "read error"))]).consume],
          [some (.int 0), Error.toAny (some (errorsNew 7 "read error"))]) :=
  ⟨rfl, mockMethod_returns_configured "Read" [anyMatcher]
    [some (.int 0), Error.toAny (some (errorsNew 7 "read error"))]
    [some (.slice "uint8" (some 1) 10)] rfl⟩

/-- C17: when n expectations on a mock are registered with `InOrder` and the
mock is then called n times, the i-th call being one the i-th expectation
accepts, every call is matched and the i-th call returns the return values
configured on the i-th expectation. -/
theorem replay_InOrder (specs : List (String × List Matcher × List GoAny))
    (calls : List (String × List GoAny))
    (h : List.Forall₂ (fun s c => s.1 = c.1 ∧ argsMatch s.2.1 c.2 = true) specs calls) :
    replay (InOrder (specs.map fun s => expect s.1 s.2.1 s.2.2)) calls
      = some (specs.map fun s => s.2.2) := by
  cases h with
  | nil => rfl
  | @cons s c specs calls hsc hrest =>
    obtain ⟨m, a⟩ := c
    have hcall := Call_pending []
      (chainAfter 0 (specs.map fun s => expect s.1 s.2.1 s.2.2))
      (expect s.1 s.2.1 s.2.2) m a (fun _ hd => absurd hd (List.not_mem_nil _)) rfl
      hsc.1 hsc.2 (fun _ hi => absurd hi (List.not_mem_nil _))
    have hnext := replay_chainAfter specs calls hrest [(expect s.1 s.2.1 s.2.2).consume] 0
      (fun d hd => by rw [List.mem_singleton.mp hd]; rfl) (by simp)
    simp only [List.nil_append] at hcall
    rw [List.singleton_append] at hnext
    simp only [List.map_cons, InOrder, replay, mockMethod, hcall, hnext, Option.map_some']
    rfl

/-- C17, at `TestMockReader_MultipleReads`: three ordered `Read` expectations
returning `(5, nil)`, `(3, nil)` and `(0, io.EOF)`, and three calls. -/
theorem replay_InOrder_witness :
    replay
        (InOrder
          [expect "Read" [anyMatcher] [some (.int 5), none],
            expect "Read" [anyMatcher] [some (.int 3), none],
            expect "Read" [anyMatcher] [some (.int 0), Error.toAny (some (errorsNew 9 "EOF"))]])
        [("Read", [some (.slice "uint8" (some 1) 10)]),
          ("Read", [some (.slice "uint8" (some 1) 10)]),
          ("Read", [some (.slice "uint8" (some 1) 10)])]
      = some
        [[some (.int 5), none], [some (.int 3), none],
          [some (.int 0), Error.toAny (some (errorsNew 9 "EOF"))]] :=
  replay_InOrder
    [("Read", [anyMatcher], [some (.int 5), none]),
      ("Read", [anyMatcher], [some (.int 3), none]),
      ("Read", [anyMatcher], [some (.int 0), Error.toAny (some (errorsNew 9 "EOF"))])]
    [("Read", [some (.slice "uint8" (some 1) 10)]),
      ("Read", [some (.slice "uint8" (some 1) 10)]),
      ("Read", [some (.slice "uint8" (some 1) 10)])]
    (.cons ⟨rfl, rfl⟩ (.cons ⟨rfl, rfl⟩ (.cons ⟨rfl, rfl⟩ .nil)))

/-! ## Complements and symmetry -/

/-- C21: for every pair of values on which the comparison is defined (it does
not panic), exactly one of `AssertEqual(t, a, b)` and `AssertNotEqual(t, a, b)`
marks the test failed. -/
theorem AssertEqual_AssertNotEqual_complement (t : T) (a b : GoAny)
    (h : ∃ r, ifaceEq a b = .ok r) :
    Xor' (okMarksFailed t (AssertEqual t a b)) (okMarksFailed t (AssertNotEqual t a b)) := by
  obtain ⟨r, hr⟩ := h
  rw [AssertEqual_of_ifaceEq t a b r hr, AssertNotEqual_of_ifaceEq t a b r hr]
  cases r
  · exact Or.inl ⟨marksFailed_Errorf _ _ _, not_marksFailed_self t⟩
  · exact Or.inr ⟨marksFailed_Errorf _ _ _, not_marksFailed_self t⟩

/-- C21, at the integers 42 and 43, where `AssertEqual` is the one that
fails, and at 42 and 42, where `AssertNotEqual` is. -/
theorem AssertEqual_AssertNotEqual_complement_witness :
    ifaceEq (some (.int 42)) (some (.int 43)) = .ok false ∧
    ifaceEq (some (.int 42)) (some (.int 42)) = .ok true ∧
    Xor' (okMarksFailed freshT (AssertEqual freshT (some (.int 42)) (some (.int 43))))
      (okMarksFailed freshT (AssertNotEqual freshT (some (.int 42)) (some (.int 43)))) ∧
    Xor' (okMarksFailed freshT (AssertEqual freshT (some (.int 42)) (some (.int 42))))
      (okMarksFailed freshT (AssertNotEqual freshT (some (.int 42)) (some (.int 42)))) :=
  ⟨rfl, rfl,
    AssertEqual_AssertNotEqual_complement freshT (some (.int 42)) (some (.int 43)) ⟨false, rfl⟩,
    AssertEqual_AssertNotEqual_complement freshT (some (.int 42)) (some (.int 42)) ⟨true, rfl⟩⟩

/-- C22: for every value `v`, exactly one of `AssertNil(t, v)` and
`AssertNotNil(t, v)` marks the test failed. -/
theorem AssertNil_AssertNotNil_complement (t : T) (v : GoAny) :
    Xor' (marksFailed t (AssertNil t v)) (marksFailed t (AssertNotNil t v)) := by
  cases v with
  | none => exact Or.inr ⟨marksFailed_Error _ _, not_marksFailed_self t⟩
  | some v => exact Or.inl ⟨marksFailed_Errorf _ _ _, not_marksFailed_self t⟩

/-- C23: `AssertBytes` does not distinguish a nil slice from an empty slice:
`AssertBytes(t, nil, []byte{})` and `AssertBytes(t, []byte{}, nil)` report no
failure, wherever the empty slice points. -/
theorem AssertBytes_nil_empty (t : T) (addr : Nat) :
    reportsNothing t
      (AssertBytes t { array := none, elems := [] } { array := some addr, elems := [] }) ∧
    reportsNothing t
      (AssertBytes t { array := some addr, elems := [] } { array := none, elems := [] }) :=
  ⟨rfl, rfl⟩

theorem bytesEqual_comm (a b : ByteSlice) : bytesEqual a b = bytesEqual b a := by
  cases h : bytesEqual b a
  · rw [← Bool.not_eq_true, bytesEqual_iff] at h ⊢
    exact fun h' => h h'.symm
  · rw [bytesEqual_iff] at h ⊢
    exact h.symm

/-- C24: `AssertBytes` and `AssertEqual` are symmetric in their two value
arguments: for every `a` and `b`, swapping expected and actual changes
neither whether a failure is reported nor whether nothing is reported (nor,
for `AssertEqual`, whether the comparison panics). -/
theorem AssertBytes_AssertEqual_symmetric (t : T) :
    (∀ a b : ByteSlice,
      (marksFailed t (AssertBytes t a b) ↔ marksFailed t (AssertBytes t b a)) ∧
      (reportsNothing t (AssertBytes t a b) ↔ reportsNothing t (AssertBytes t b a))) ∧
    (∀ a b : GoAny,
      (okMarksFailed t (AssertEqual t a b) ↔ okMarksFailed t (AssertEqual t b a)) ∧
      (okReportsNothing t (AssertEqual t a b) ↔ okReportsNothing t (AssertEqual t b a)) ∧
      ((∃ p, AssertEqual t a b = .error p) ↔ (∃ p, AssertEqual t b a = .error p))) := by
  constructor
  · intro a b
    unfold AssertBytes
    rw [bytesEqual_comm a b]
    cases bytesEqual b a
    · exact ⟨iff_of_true (marksFailed_Errorf _ _ _) (marksFailed_Errorf _ _ _),
        iff_of_false (not_reportsNothing_Errorf _ _ _) (not_reportsNothing_Errorf _ _ _)⟩
    · exact ⟨Iff.rfl, Iff.rfl⟩
  · intro a b
    cases h : ifaceEq b a with
    | error p =>
      have h' : ifaceEq a b = .error p := by rw [ifaceEq_comm, h]
      simp [AssertEqual, h, h', okMarksFailed, okReportsNothing]
    | ok r =>
      have h' : ifaceEq a b = .ok r := by rw [ifaceEq_comm, h]
      rw [AssertEqual_of_ifaceEq t a b r h', AssertEqual_of_ifaceEq t b a r h]
      cases r
      · exact ⟨iff_of_true (marksFailed_Errorf _ _ _) (marksFailed_Errorf _ _ _),
          iff_of_false (not_reportsNothing_Errorf _ _ _) (not_reportsNothing_Errorf _ _ _),
          by simp⟩
      · exact ⟨Iff.rfl, Iff.rfl, by simp⟩

/-! ## At most one report for each call -/

theorem atMostOneReport_self (t : T) : atMostOneReport t t := Or.inl rfl

theorem atMostOneReport_Errorf (t : T) (format : String) (args : List Arg) :
    atMostOneReport t (t.Errorf format args) := Or.inr ⟨_, rfl⟩

theorem atMostOneReport_Error (t : T) (args : List Arg) :
    atMostOneReport t (t.Error args) := Or.inr ⟨_, rfl⟩

/-- C25: every assertion helper records at most one failure message for each
call (`AssertPanic` on top of what `f` itself logged), and in `AssertError`
the three failing branches are mutually exclusive: which report is logged, if
any, is fixed by which of the two errors are nil. -/
theorem helpers_at_most_one_report (M : IsTable) (t : T) :
    (∀ (f : GoFunc) (msg : String), atMostOneReport (f t).1 (AssertPanic t f msg).1) ∧
    (∀ expected actual : Error, atMostOneReport t (AssertError M t expected actual)) ∧
    (∀ expected actual : ByteSlice, atMostOneReport t (AssertBytes t expected actual)) ∧
    (∀ expected actual : GoAny, okAtMostOneReport t (AssertEqual t expected actual)) ∧
    (∀ expected actual : GoAny, okAtMostOneReport t (AssertNotEqual t expected actual)) ∧
    (∀ value : GoAny, atMostOneReport t (AssertNil t value)) ∧
    (∀ value : GoAny, atMostOneReport t (AssertNotNil t value)) ∧
    (∀ expected actual : Error,
      (expected = none ∧ actual = none ∧ AssertError M t expected actual = t) ∨
      (expected = none ∧ actual ≠ none ∧
        AssertError M t expected actual
          = t.Errorf "expected no error, got %v" [.err actual]) ∨
      (expected ≠ none ∧ actual = none ∧
        AssertError M t expected actual
          = t.Errorf "expected error %v, got nil" [.err expected]) ∨
      (expected ≠ none ∧ actual ≠ none ∧
        (AssertError M t expected actual = t ∨
          AssertError M t expected actual
            = t.Errorf "expected error %v, got %v" [.err expected, .err actual]))) := by
  refine ⟨fun f msg => ?_, fun e a => ?_, fun a b => ?_, fun x y => ?_, fun x y => ?_,
    fun v => ?_, fun v => ?_, fun e a => ?_⟩
  · unfold AssertPanic
    rcases f t with ⟨t1, c⟩
    cases c with
    | returned => exact atMostOneReport_Errorf _ _ _
    | panicked value =>
      cases value with
      | none => exact atMostOneReport_Errorf _ _ _
      | some v => exact atMostOneReport_self _
  · cases e with
    | none =>
      cases a with
      | none => exact atMostOneReport_self _
      | some a => exact atMostOneReport_Errorf _ _ _
    | some e =>
      cases a with
      | none => exact atMostOneReport_Errorf _ _ _
      | some a =>
        rw [AssertError_some_some]
        split
        · exact atMostOneReport_Errorf _ _ _
        · exact atMostOneReport_self _
  · unfold AssertBytes
    cases bytesEqual a b
    · exact atMostOneReport_Errorf _ _ _
    · exact atMostOneReport_self _
  · unfold AssertEqual
    cases ifaceEq x y with
    | error p => exact True.intro
    | ok r =>
      cases r
      · exact atMostOneReport_Errorf _ _ _
      · exact atMostOneReport_self _
  · unfold AssertNotEqual
    cases ifaceEq x y with
    | error p => exact True.intro
    | ok r =>
      cases r
      · exact atMostOneReport_self _
      · exact atMostOneReport_Errorf _ _ _
  · cases v with
    | none => exact atMostOneReport_self _
    | some v => exact atMostOneReport_Errorf _ _ _
  · cases v with
    | none => exact atMostOneReport_Error _ _
    | some v => exact atMostOneReport_self _
  · cases e with
    | none =>
      cases a with
      | none => exact Or.inl ⟨rfl, rfl, rfl⟩
      | some a => exact Or.inr (Or.inl ⟨rfl, by simp, rfl⟩)
    | some e =>
      cases a with
      | none => exact Or.inr (Or.inr (Or.inl ⟨by simp, rfl, rfl⟩))
      | some a =>
        refine Or.inr (Or.inr (Or.inr ⟨by simp, by simp, ?_⟩))
        rw [AssertError_some_some]
        split
        · exact Or.inr rfl
        · exact Or.inl rfl

/-! ## Panics of `RandomBytes` -/

/-- C26 as stated fails: the largest `int` is not negative and the random
source is in working order, yet `RandomBytes` panics: `make` has a second
panic path, a length above the allocation limit. -/
theorem RandomBytes_maxint_counterexample :
    amd64.isInt (2 ^ 63 - 1) = true ∧ (0 : Int) ≤ 2 ^ 63 - 1 ∧
    countingSource.failure = none ∧
    (RandomBytes amd64 countingSource (2 ^ 63 - 1)).2
      = .panicked (some (.error makesliceLenError)) :=
  ⟨by decide, by decide, rfl, rfl⟩

/-- C26, amended: for every `int` `n < 0`, `RandomBytes(n)` panics instead of
returning a slice, with the runtime error of `make`; for `n >= 0` it panics
in exactly two cases: `n` is above the allocation limit of `make` (the same
runtime error), or `n > 0`, the slice was allocated and `rand.Read` returns
the error of a failing random source (which it does before Go 1.24; later
versions end the process instead). -/
theorem RandomBytes_panics (rt : Runtime) (src : RandSource) (n : Int)
    (_hint : rt.isInt n = true) :
    (n < 0 → (RandomBytes rt src n).2 = .panicked (some (.error makesliceLenError))) ∧
    (0 ≤ n → ∀ p : GoAny,
      (RandomBytes rt src n).2 = .panicked p ↔
        (((rt.maxAlloc : Int) < n ∧ p = some (.error makesliceLenError)) ∨
          (0 < n ∧ n ≤ rt.maxAlloc ∧ (∃ addr, rt.alloc n.toNat = some addr) ∧
            rt.readErrorIsFatal = false ∧
            ∃ err, src.failure = some err ∧
              p = some (.string ("failed to generate random bytes: " ++ err.Error))))) := by
  constructor
  · intro hn
    rw [RandomBytes_of_bad_len rt src n (Or.inl hn)]
  · intro hn p
    by_cases hmax : (rt.maxAlloc : Int) < n
    · rw [RandomBytes_of_bad_len rt src n (Or.inr hmax)]
      constructor
      · intro h
        exact Or.inl ⟨hmax, (Outcome.panicked.inj h).symm⟩
      · rintro (⟨-, hp⟩ | ⟨-, hle, -⟩)
        · rw [hp]
        · omega
    · have hguard : ¬ (n < 0 ∨ (rt.maxAlloc : Int) < n) := by
        rintro (h | h) <;> omega
      by_cases h0 : n = 0
      · subst h0
        rw [RandomBytes_zero]
        constructor
        · intro h
          cases h
        · rintro (⟨h, -⟩ | ⟨h, -⟩) <;> omega
      · cases ha : rt.alloc n.toNat with
        | none =>
          rw [RandomBytes_out_of_memory rt src n hguard h0 ha]
          constructor
          · intro h
            cases h
          · rintro (⟨h, -⟩ | ⟨-, -, ⟨addr, haddr⟩, -⟩)
            · omega
            · cases haddr
        | some addr =>
          rw [RandomBytes_allocated rt src n addr hguard h0 ha]
          cases hs : src.failure with
          | none =>
            constructor
            · intro h
              cases h
            · rintro (⟨h, -⟩ | ⟨-, -, -, -, err, he, -⟩)
              · omega
              · cases he
          | some err =>
            cases hf : rt.readErrorIsFatal
            · constructor
              · intro h
                exact Or.inr ⟨by omega, by omega, ⟨addr, rfl⟩, rfl, err, rfl,
                  (Outcome.panicked.inj h).symm⟩
              · rintro (⟨h, -⟩ | ⟨-, -, -, -, err', he, hp⟩)
                · omega
                · cases he
                  rw [hp]
                  rfl
            · constructor
              · intro h
                cases h
              · rintro (⟨h, -⟩ | ⟨-, -, -, hfalse, -⟩)
                · omega
                · cases hfalse

/-- C26, amended, at the length -1, and at the length 4 with a random source
that fails with the error "entropy source unavailable". -/
theorem RandomBytes_panics_witness :
    amd64.isInt (-1) = true ∧ amd64.isInt 4 = true ∧
    (RandomBytes amd64 countingSource (-1)).2
      = .panicked (some (.error makesliceLenError)) ∧
    (RandomBytes amd64 brokenSource 4).2
      = .panicked (some (.string
          "failed to generate random bytes: entropy source unavailable")) :=
  ⟨by decide, by decide,
    (RandomBytes_panics amd64 countingSource (-1) (by decide)).1 (by decide),
    ((RandomBytes_panics amd64 brokenSource 4 (by decide)).2 (by decide) _).mpr
      (Or.inr ⟨by decide, by decide, ⟨0xC000100000, by decide⟩, rfl,
        errorsNew 3 "entropy source unavailable", rfl,
        congrArg (fun s => some (GoValue.string s)) (by decide)⟩)⟩

/-! ## `formatMsg` and the failure text of `AssertPanic` -/

theorem utf8ByteSize_go_append (xs ys : List Char) :
    String.utf8ByteSize.go (xs ++ ys)
      = String.utf8ByteSize.go xs + String.utf8ByteSize.go ys := by
  induction xs with
  | nil => simp [String.utf8ByteSize.go]
  | cons c cs ih =>
    simp [String.utf8ByteSize.go, ih]
    omega

/-- The length in bytes of a concatenation is the sum of the lengths. -/
theorem goLen_append (a b : String) : goLen (a ++ b) = goLen a + goLen b := by
  cases a
  cases b
  simp only [goLen, String.utf8ByteSize]
  exact utf8ByteSize_go_append _ _

theorem formatMsg_of_ne (msg : String) (h : msg ≠ "") : formatMsg msg = " (" ++ msg ++ ")" := by
  simp [formatMsg, h]

/-- The `%s` verb of the report of `AssertPanic` is replaced by its operand. -/
theorem Sprintf_expected_panic (s : String) :
    Sprintf "expected panic%s, but function did not panic" [.str s]
      = some ("expected panic" ++ s ++ ", but function did not panic") := by
  simp [Sprintf, sprintfChars, String.toList]
  apply String.ext
  simp

/-- What `AssertPanic` does when `f` returns. -/
theorem AssertPanic_of_returned (t : T) (f : GoFunc) (msg : String)
    (hf : (f t).2 = .returned) :
    (AssertPanic t f msg).1
      = (f t).1.Errorf "expected panic%s, but function did not panic" [.str (formatMsg msg)] := by
  unfold AssertPanic
  rcases hft : f t with ⟨t1, c⟩
  rw [hft] at hf
  simp only at hf
  subst hf
  rfl

/-- C27: when `f` does not panic, the one report `AssertPanic` logs has the
text "expected panic" + formatMsg(msg) + ", but function did not panic": for
an empty `msg` that is "expected panic, but function did not panic", for a
non-empty one "expected panic (msg), but function did not panic". -/
theorem AssertPanic_failure_text (t : T) (f : GoFunc) (msg : String)
    (hf : (f t).2 = .returned) :
    ∃ r : Report,
      (AssertPanic t f msg).1.log = (f t).1.log ++ [r] ∧
      r.text = some ("expected panic" ++ formatMsg msg ++ ", but function did not panic") ∧
      (msg = "" → r.text = some "expected panic, but function did not panic") ∧
      (msg ≠ "" →
        r.text = some ("expected panic (" ++ msg ++ "), but function did not panic")) := by
  refine ⟨.errorf "expected panic%s, but function did not panic" [.str (formatMsg msg)],
    ?_, Sprintf_expected_panic _, fun h => ?_, fun h => ?_⟩
  · rw [AssertPanic_of_returned t f msg hf]
    rfl
  · subst h
    exact Sprintf_expected_panic _
  · rw [Report.text, Sprintf_expected_panic, formatMsg_of_ne msg h]
    congr 1
    apply String.ext
    simp

/-- C27, at a function that does nothing, with the empty message and with the
message "boom". -/
theorem AssertPanic_failure_text_witness :
    (∃ r : Report,
      (AssertPanic freshT (fun t => (t, .returned)) "").1.log = [r] ∧
      r.text = some "expected panic, but function did not panic") ∧
    (∃ r : Report,
      (AssertPanic freshT (fun t => (t, .returned)) "boom").1.log = [r] ∧
      r.text = some "expected panic (boom), but function did not panic") := by
  obtain ⟨r1, h1, -, h1', -⟩ := AssertPanic_failure_text freshT (fun t => (t, .returned)) "" rfl
  obtain ⟨r2, h2, -, -, h2'⟩ :=
    AssertPanic_failure_text freshT (fun t => (t, .returned)) "boom" rfl
  exact ⟨⟨r1, h1, h1' rfl⟩, ⟨r2, h2, h2' (by decide)⟩⟩

/-- C28: `formatMsg("")` is the empty string, and for every non-empty `msg`
`formatMsg(msg)` equals " (" + msg + ")", so that its length is
`len(msg) + 3` and `msg` can be read back from it. -/
theorem formatMsg_spec :
    formatMsg "" = "" ∧
    ∀ msg : String, msg ≠ "" →
      formatMsg msg = " (" ++ msg ++ ")" ∧
      goLen (formatMsg msg) = goLen msg + 3 ∧
      stripMsg (formatMsg msg) = msg := by
  refine ⟨rfl, fun msg h => ?_⟩
  rw [formatMsg_of_ne msg h]
  refine ⟨rfl, ?_, ?_⟩
  · rw [goLen_append, goLen_append]
    have h1 : goLen " (" = 2 := by decide
    have h2 : goLen ")" = 1 := by decide
    omega
  · simp [stripMsg]

/-- C28, at the message of `TestFormatMsg_NonEmpty`. -/
theorem formatMsg_spec_witness :
    formatMsg "test message" = " (test message)" ∧
    goLen (formatMsg "test message") = goLen "test message" + 3 ∧
    stripMsg (formatMsg "test message") = "test message" :=
  ⟨(formatMsg_spec.2 "test message" (by decide)).1.trans (by decide),
    (formatMsg_spec.2 "test message" (by decide)).2.1,
    (formatMsg_spec.2 "test message" (by decide)).2.2⟩

end Testutil
